import Mathlib

/-!
Shallow embedding of the uzpay payment-webhook library (TypeScript) in Lean 4.

The embedding translates the three webhook handlers (Payme, Click, Paynet),
their provider utilities (auth verification, signature source, response
builders, status mapping) and the reference store semantics
(`createMockStore` in `src/test-utils.ts`, the library's documented reference
implementation of the `PaymentStore` contract) into executable Lean
definitions, and proves properties of them.

Modelling conventions, fixed once here:
* JavaScript numbers used as amounts/ids/timestamps are modelled as `Int`;
  the Click webhook amount, which the code feeds to `Number(amount) * 100`
  and `Math.round`, is modelled as `Rat`.
* A JS value that is used both via `String(x)` and `Number(x)` (the Click
  `amount` and `action` fields) is modelled as a pair of its two coercions.
* JS truthiness of optional strings/numbers (`!x`, `x || y`, `x && y`) is
  modelled by explicit helpers (`""` and `0` are falsy, `null`/`undefined`
  is `none`).
* `Date.now()` is a `Behavior` field `now`; the Tashkent timestamp
  formatters are opaque `Behavior` fields (their output strings are never
  inspected by the handlers).
* MD5 is an opaque `String → String` parameter carried in `Behavior`: the
  handlers only compare its output for equality.
* The HTTP Basic `authorization` header is modelled after base64 decoding
  and `":"`-splitting, i.e. as `missing`, `malformed` (absent `Basic `
  prefix or undecodable) or a `(login, password)` pair; `timingSafeEqual`
  itself is translated from `src/utils/crypto.ts` verbatim.
* A promise rejection (a store operation or callback that throws) is
  modelled with `Except Unit`: `Except.error ()` is an exception
  propagating out of the enclosing code, and a TS `try/catch` is `mTry`.
  Each collaborator's throwing is governed by a `Behavior` flag.
* `createdAt`/`updatedAt` are ISO strings in TS converted with
  `new Date(s).getTime()`; they are modelled directly as epoch-ms `Int`.
  The storage contract leaves `updatedAt` maintenance to the adapter;
  updates here leave it unchanged (no claim depends on it).
-/

namespace UzPay

/-- Transaction lifecycle status (`TransactionStatus` in `src/types`). -/
inductive Status where
  | PENDING
  | PREPARED
  | COMPLETED
  | FAILED
deriving DecidableEq, Repr

/-- The canonical transaction record (`Transaction` in `src/types`). -/
structure Transaction where
  id : String
  userId : String
  planId : String
  provider : String
  amount : Int
  status : Status
  providerTransactionId : Option String
  providerCreateTime : Option Int
  providerPerformTime : Option Int
  providerCancelTime : Option Int
  cancelReason : Option Int
  shortId : Option String
  createdAt : Int
  updatedAt : Int
deriving DecidableEq, Repr

/-- `UpdateTransactionFields`: a partial update; `none` means the field is
absent from the update object. -/
structure UpdateFields where
  status : Option Status := none
  providerTransactionId : Option String := none
  providerCreateTime : Option Int := none
  providerPerformTime : Option Int := none
  providerCancelTime : Option Int := none
  cancelReason : Option Int := none
  provider : Option String := none
deriving DecidableEq, Repr

/-- Apply a partial update to a transaction (`Object.assign(tx, fields)` in
the reference store, restricted to the contract's updatable fields). -/
def applyUpdate (t : Transaction) (f : UpdateFields) : Transaction :=
  { t with
    status := f.status.getD t.status
    providerTransactionId := (f.providerTransactionId.map some).getD t.providerTransactionId
    providerCreateTime := (f.providerCreateTime.map some).getD t.providerCreateTime
    providerPerformTime := (f.providerPerformTime.map some).getD t.providerPerformTime
    providerCancelTime := (f.providerCancelTime.map some).getD t.providerCancelTime
    cancelReason := (f.cancelReason.map some).getD t.cancelReason
    provider := f.provider.getD t.provider }

/-- The store contents: a finite collection of transactions keyed by `id`
(the reference store is a `Map<string, Transaction>`; uniqueness of ids is
stated separately as `UniqueIds`). -/
abbrev Store := List Transaction

/-- Ids are pairwise distinct — the `Map` keying of the reference store. -/
def UniqueIds (st : Store) : Prop :=
  st.Pairwise (fun a b => a.id ≠ b.id)

/-- `store.getTransactionById(id)`. -/
def getTransactionById (st : Store) (id : String) : Option Transaction :=
  st.find? (fun t => t.id == id)

/-- `store.getTransactionByShortId(shortId)`. -/
def getTransactionByShortId (st : Store) (s : String) : Option Transaction :=
  st.find? (fun t => t.shortId == some s)

/-- `store.getTransactionByProviderId(provider, providerTransactionId)`. -/
def getTransactionByProviderId (st : Store) (p e : String) : Option Transaction :=
  st.find? (fun t => t.provider == p && t.providerTransactionId == some e)

/-- `store.updateTransaction(id, fields)`. -/
def updateTransaction (st : Store) (id : String) (f : UpdateFields) : Store :=
  st.map (fun t => if t.id == id then applyUpdate t f else t)

/-- `store.getTransactionsByDateRange(provider, from, to)` — the reference
store filters by provider and ignores the date bounds. -/
def getTransactionsByDateRange (st : Store) (p : String) : List Transaction :=
  st.filter (fun t => t.provider == p)

-- =============================================================================
-- JS-truthiness helpers
-- =============================================================================

/-- Truthiness of an optional string: `undefined`, `null` and `""` are falsy. -/
def truthyStr : Option String → Bool
  | some s => s ≠ ""
  | none => false

/-- Truthiness of an optional number: `undefined`, `null` and `0` are falsy. -/
def truthyInt : Option Int → Bool
  | some n => n ≠ 0
  | none => false

/-- `o || d` for an optional number `o`: yields `d` when `o` is falsy. -/
def orElseNum (o : Option Int) (d : Int) : Int :=
  match o with
  | some v => if v = 0 then d else v
  | none => d

/-- `a || b` for two numbers (used for `tx.updatedAt || tx.createdAt`). -/
def jsOrInt (a b : Int) : Int :=
  if a = 0 then b else a

/-- `Math.round` on a JS number: round half toward positive infinity. -/
def jsRound (q : Rat) : Int :=
  (q + 1 / 2).floor

/-- `Number(s) || 0` for an optional string holding a decimal integer
(`Number(tx.providerTransactionId) || 0` in Paynet GetStatement). -/
def jsNumberOr0 (o : Option String) : Int :=
  (o.bind (fun s => s.toInt?)).getD 0

/-- `tiyinToUzs` from `src/utils/currency.ts`: tiyin / 100. -/
def tiyinToUzs (tiyin : Int) : Rat :=
  (tiyin : Rat) / 100

-- =============================================================================
-- Events, behavior and the effect monad
-- =============================================================================

/-- Observable collaborator interactions of one handler invocation, in
program order. -/
inductive Event where
  | readById (id : String)
  | readByShortId (s : String)
  | readByProviderId (p e : String)
  | readByDateRange (p : String)
  | write (id : String)
  | cbCompleted (t : Transaction)
  | cbCancelled (t : Transaction)
deriving DecidableEq, Repr

/-- Environment of one invocation: the clock, the opaque formatting/hash
functions, the optional callbacks' results, and whether each fallible
collaborator call rejects (throws). -/
structure Behavior where
  now : Int
  getThrows : Bool := false
  updateThrows : Bool := false
  completedThrows : Bool := false
  cancelledThrows : Bool := false
  fiscalThrows : Bool := false
  userInfoThrows : Bool := false
  passwordThrows : Bool := false
  hasFiscalCb : Bool := false
  fiscalDetail : Option String := none
  hasUserInfoCb : Bool := false
  userInfoName : Option String := none
  hasPasswordCb : Bool := false
  tsNow : String := ""
  tsCheck : String := ""
  fmtTs : Int → String := fun _ => ""
  md5 : String → String := fun _ => ""

/-- Mutable context threaded through a handler run. -/
structure St where
  store : Store
  events : List Event
deriving Repr

/-- Effect of one sub-computation: `Except.error ()` is a propagating JS
exception; the `St` at the moment of the throw is retained. -/
def M (α : Type) : Type :=
  St → Except Unit α × St

deriving instance DecidableEq for Except

/-- `try { x } catch { h }`. -/
def mTry {α : Type} (x : M α) (h : St → α × St) : St → α × St := fun s =>
  match x s with
  | (Except.ok a, s1) => (a, s1)
  | (Except.error _, s1) => h s1

def emit (e : Event) (s : St) : St :=
  { s with events := s.events ++ [e] }

/-- `await store.getTransactionById(id)`. -/
def mGetById (b : Behavior) (id : String) : M (Option Transaction) := fun s =>
  let s := emit (Event.readById id) s
  if b.getThrows then (Except.error (), s)
  else (Except.ok (getTransactionById s.store id), s)

/-- `await store.getTransactionByShortId(shortId)`. -/
def mGetByShortId (b : Behavior) (sh : String) : M (Option Transaction) := fun s =>
  let s := emit (Event.readByShortId sh) s
  if b.getThrows then (Except.error (), s)
  else (Except.ok (getTransactionByShortId s.store sh), s)

/-- `await store.getTransactionByProviderId(provider, extId)`. -/
def mGetByProviderId (b : Behavior) (p e : String) : M (Option Transaction) := fun s =>
  let s := emit (Event.readByProviderId p e) s
  if b.getThrows then (Except.error (), s)
  else (Except.ok (getTransactionByProviderId s.store p e), s)

/-- `await store.getTransactionsByDateRange(provider, from, to)`. -/
def mGetByDateRange (b : Behavior) (p : String) : M (List Transaction) := fun s =>
  let s := emit (Event.readByDateRange p) s
  if b.getThrows then (Except.error (), s)
  else (Except.ok (getTransactionsByDateRange s.store p), s)

/-- `await store.updateTransaction(id, fields)`. -/
def mUpdate (b : Behavior) (id : String) (f : UpdateFields) : M Unit := fun s =>
  let s := emit (Event.write id) s
  if b.updateThrows then (Except.error (), s)
  else (Except.ok (), { s with store := updateTransaction s.store id f })

/-- `await callbacks.onPaymentCompleted(tx)`. -/
def mCbCompleted (b : Behavior) (t : Transaction) : M Unit := fun s =>
  let s := emit (Event.cbCompleted t) s
  if b.completedThrows then (Except.error (), s) else (Except.ok (), s)

/-- `await callbacks.onPaymentCancelled(tx)`. -/
def mCbCancelled (b : Behavior) (t : Transaction) : M Unit := fun s =>
  let s := emit (Event.cbCancelled t) s
  if b.cancelledThrows then (Except.error (), s) else (Except.ok (), s)

/-- Number of completion/cancellation callback invocations in a trace. -/
def cbCount (evs : List Event) : Nat :=
  evs.countP (fun e =>
    match e with
    | Event.cbCompleted _ => true
    | Event.cbCancelled _ => true
    | _ => false)

-- =============================================================================
-- Authentication (src/providers/payme.ts, src/providers/paynet.ts,
-- src/utils/crypto.ts)
-- =============================================================================

/-- The `authorization` header after the `Basic `-prefix check, base64
decoding and `":"` split: `missing` (absent header), `malformed` (wrong
scheme or undecodable), or the credential pair. -/
inductive AuthHeader where
  | missing
  | malformed
  | basic (login password : String)
deriving DecidableEq, Repr

/-- `timingSafeEqual` from `src/utils/crypto.ts`: length check, then an
or-fold of char-code xors compared with 0. -/
def timingSafeEqual (a b : String) : Bool :=
  if a.length ≠ b.length then false
  else ((a.toList.zip b.toList).foldl
    (fun r p => r ||| (p.1.toNat ^^^ p.2.toNat)) 0) == 0

/-- `verifyPaymeAuth`: fixed login `"Paycom"`, constant-time password check. -/
def verifyPaymeAuth (secretKey : String) (h : AuthHeader) : Bool :=
  match h with
  | AuthHeader.basic login password =>
    login == "Paycom" && timingSafeEqual password secretKey
  | _ => false

/-- `verifyPaynetAuth`: constant-time check of both components. -/
def verifyPaynetAuth (username password : String) (h : AuthHeader) : Bool :=
  match h with
  | AuthHeader.basic u p =>
    timingSafeEqual u username && timingSafeEqual p password
  | _ => false

-- =============================================================================
-- Payme provider (src/providers/payme.ts)
-- =============================================================================

/-- `PAYME_STATE` constants. -/
def PAYME_STATE_CREATED : Int := 1
def PAYME_STATE_COMPLETED : Int := 2
def PAYME_STATE_CANCELLED_BEFORE : Int := -1
def PAYME_STATE_CANCELLED_AFTER : Int := -2

/-- `mapToPaymeState`: internal status to Payme state integer. -/
def mapToPaymeState (st : Status) (hasPerformTime : Bool) : Int :=
  match st with
  | Status.PENDING => PAYME_STATE_CREATED
  | Status.PREPARED => PAYME_STATE_CREATED
  | Status.COMPLETED => PAYME_STATE_COMPLETED
  | Status.FAILED =>
    if hasPerformTime then PAYME_STATE_CANCELLED_AFTER
    else PAYME_STATE_CANCELLED_BEFORE

/-- A Payme statement item (`GetStatement` response element). -/
structure PaymeStatementItem where
  extId : Option String
  time : Int
  amount : Int
  orderId : String
  create_time : Int
  perform_time : Int
  cancel_time : Int
  transaction : String
  state : Int
  reason : Option Int
deriving DecidableEq, Repr

/-- A Payme JSON-RPC success result, one constructor per response shape
produced by the handler. -/
inductive PaymeResult where
  | checkPerform (allow : Bool) (detail : Option String)
  | create (create_time : Int) (transaction : String) (state : Int)
  | perform (transaction : String) (perform_time : Int) (state : Int)
  | cancel (transaction : String) (cancel_time : Int) (state : Int)
  | check (create_time perform_time cancel_time : Int) (transaction : String)
      (state : Int) (reason : Option Int)
  | statement (items : List PaymeStatementItem)
deriving DecidableEq, Repr

/-- A Payme JSON-RPC response body: success envelope or error envelope
(localized messages are constant per code and omitted; `data` is the
optional diagnostic string). -/
inductive PaymeBodyOut where
  | err (id : Int) (code : Int) (data : Option String)
  | res (id : Int) (r : PaymeResult)
deriving DecidableEq, Repr

def paymeInvalidAmount (id : Int) : PaymeBodyOut :=
  PaymeBodyOut.err id (-31001) (some "amount")
def paymeTransactionNotFound (id : Int) : PaymeBodyOut :=
  PaymeBodyOut.err id (-31003) none
def paymeOrderNotFound (id : Int) : PaymeBodyOut :=
  PaymeBodyOut.err id (-31050) (some "order_id")
def paymeOrderAlreadyPaid (id : Int) : PaymeBodyOut :=
  PaymeBodyOut.err id (-31051) (some "order_id")
def paymeCannotPerform (id : Int) : PaymeBodyOut :=
  PaymeBodyOut.err id (-31008) none
def paymeInsufficientPrivileges (id : Int) : PaymeBodyOut :=
  PaymeBodyOut.err id (-32504) none
def paymeMethodNotFound (id : Int) (method : String) : PaymeBodyOut :=
  PaymeBodyOut.err id (-32601) (some method)
def paymeInternalError (id : Int) : PaymeBodyOut :=
  PaymeBodyOut.err id (-32400) none
def paymeInvalidJsonRpc (id : Int) : PaymeBodyOut :=
  PaymeBodyOut.err id (-32600) none

/-- HTTP wire result of the Payme webhook (`{ status, body }`). -/
structure PaymeWire where
  status : Int
  body : PaymeBodyOut
deriving DecidableEq, Repr

structure PaymeConfig where
  merchantId : String
  secretKey : String
deriving DecidableEq, Repr

/-- Payme request params (`params.account?.order_id` flattened to
`orderId`). -/
structure PaymeParams where
  extId : Option String := none
  time : Option Int := none
  amount : Option Int := none
  orderId : Option String := none
  reason : Option Int := none
  fromTime : Option Int := none
  toTime : Option Int := none
deriving DecidableEq, Repr

/-- The webhook body after `isPaymeRequest` validation: `invalid` carries
the `id` field when it happened to be a number. -/
inductive PaymeBodyIn where
  | invalid (idGuess : Option Int)
  | valid (method : String) (id : Int) (params : PaymeParams)
deriving DecidableEq, Repr

def TWELVE_HOURS_MS : Int := 12 * 60 * 60 * 1000

-- =============================================================================
-- Payme handler (src/handlers/payme.handler.ts)
-- =============================================================================

/-- Derived response fields shared by CheckTransaction and GetStatement. -/
structure PaymeFormat where
  createTime : Int
  performTime : Int
  cancelTime : Int
  state : Int
  reason : Option Int
deriving DecidableEq, Repr

/-- `formatPaymeTransaction`. -/
def formatPaymeTransaction (t : Transaction) : PaymeFormat :=
  let createTime := orElseNum t.providerCreateTime t.createdAt
  let performTime := orElseNum t.providerPerformTime
    (if t.status = Status.COMPLETED then jsOrInt t.updatedAt t.createdAt else 0)
  let cancelTime := orElseNum t.providerCancelTime
    (if t.status = Status.FAILED then jsOrInt t.updatedAt t.createdAt else 0)
  let state0 := mapToPaymeState t.status (truthyInt t.providerPerformTime)
  let state :=
    if t.status = Status.FAILED then
      if truthyInt t.providerPerformTime then PAYME_STATE_CANCELLED_AFTER
      else PAYME_STATE_CANCELLED_BEFORE
    else state0
  let reason : Option Int :=
    if state = PAYME_STATE_CANCELLED_AFTER then some 5
    else if state = PAYME_STATE_CANCELLED_BEFORE then
      some (orElseNum t.cancelReason 3)
    else none
  ⟨createTime, performTime, cancelTime, state, reason⟩

/-- `handleCheckPerform`. -/
def payme_handleCheckPerform (b : Behavior) (reqId : Int) (p : PaymeParams) :
    M PaymeBodyOut := fun s =>
  if ¬ truthyStr p.orderId then (Except.ok (paymeOrderNotFound reqId), s)
  else
    match mGetById b (p.orderId.getD "") s with
    | (Except.error e, s) => (Except.error e, s)
    | (Except.ok none, s) => (Except.ok (paymeOrderNotFound reqId), s)
    | (Except.ok (some tx), s) =>
      if p.amount ≠ some tx.amount then (Except.ok (paymeInvalidAmount reqId), s)
      else if tx.status = Status.FAILED then (Except.ok (paymeCannotPerform reqId), s)
      else if b.hasFiscalCb then
        if b.fiscalThrows then (Except.error (), s)
        else (Except.ok (PaymeBodyOut.res reqId
          (PaymeResult.checkPerform true b.fiscalDetail)), s)
      else (Except.ok (PaymeBodyOut.res reqId
        (PaymeResult.checkPerform true none)), s)

/-- `handleCreate`. -/
def payme_handleCreate (b : Behavior) (reqId : Int) (p : PaymeParams) :
    M PaymeBodyOut := fun s =>
  match p.orderId, p.extId, p.time, p.amount with
  | some orderId, some extId, some time, some amount =>
    if orderId = "" ∨ extId = "" ∨ time = 0 ∨ amount = 0 then
      (Except.ok (paymeOrderNotFound reqId), s)
    else
      match mGetById b orderId s with
      | (Except.error e, s) => (Except.error e, s)
      | (Except.ok none, s) => (Except.ok (paymeOrderNotFound reqId), s)
      | (Except.ok (some tx), s) =>
        if amount ≠ tx.amount then (Except.ok (paymeInvalidAmount reqId), s)
        else if tx.providerTransactionId = some extId then
          -- Idempotency: same Payme transaction
          let st0 := mapToPaymeState tx.status (truthyInt tx.providerPerformTime)
          (Except.ok (PaymeBodyOut.res reqId (PaymeResult.create time tx.id
            (if st0 = 0 then PAYME_STATE_CREATED else st0))), s)
        else if truthyStr tx.providerTransactionId ∧
            tx.providerTransactionId ≠ some extId then
          -- Different Payme transaction for the same order: 12-hour rule
          let isExpired := tx.status = Status.PREPARED ∧
            truthyInt tx.providerCreateTime ∧
            b.now - (tx.providerCreateTime.getD 0) > TWELVE_HOURS_MS
          if isExpired then
            match mUpdate b tx.id
                { providerTransactionId := some extId,
                  providerCreateTime := some time,
                  status := some Status.PREPARED } s with
            | (Except.error e, s) => (Except.error e, s)
            | (Except.ok _, s) =>
              (Except.ok (PaymeBodyOut.res reqId
                (PaymeResult.create time tx.id PAYME_STATE_CREATED)), s)
          else (Except.ok (paymeOrderAlreadyPaid reqId), s)
        else if tx.status = Status.COMPLETED ∨ tx.status = Status.FAILED then
          (Except.ok (paymeCannotPerform reqId), s)
        else
          match mUpdate b tx.id
              { status := some Status.PREPARED,
                providerTransactionId := some extId,
                providerCreateTime := some time } s with
          | (Except.error e, s) => (Except.error e, s)
          | (Except.ok _, s) =>
            (Except.ok (PaymeBodyOut.res reqId
              (PaymeResult.create time tx.id PAYME_STATE_CREATED)), s)
  | _, _, _, _ => (Except.ok (paymeOrderNotFound reqId), s)

/-- `handlePerform`. -/
def payme_handlePerform (b : Behavior) (reqId : Int) (p : PaymeParams) :
    M PaymeBodyOut := fun s =>
  if ¬ truthyStr p.extId then (Except.ok (paymeTransactionNotFound reqId), s)
  else
    let extId := p.extId.getD ""
    match mGetByProviderId b "payme" extId s with
    | (Except.error e, s) => (Except.error e, s)
    | (Except.ok none, s) => (Except.ok (paymeTransactionNotFound reqId), s)
    | (Except.ok (some tx), s) =>
      if tx.status = Status.COMPLETED then
        -- Idempotency: already completed
        let performTime := orElseNum tx.providerPerformTime
          (jsOrInt tx.updatedAt tx.createdAt)
        (Except.ok (PaymeBodyOut.res reqId
          (PaymeResult.perform tx.id performTime PAYME_STATE_COMPLETED)), s)
      else if tx.status = Status.FAILED then (Except.ok (paymeCannotPerform reqId), s)
      else if tx.status ≠ Status.PREPARED then (Except.ok (paymeCannotPerform reqId), s)
      else
        let performTime := b.now
        let updatedTx := { tx with
          status := Status.COMPLETED,
          providerTransactionId := some extId,
          providerPerformTime := some performTime }
        -- Grant access first, then persist
        match mCbCompleted b updatedTx s with
        | (Except.error e, s) => (Except.error e, s)
        | (Except.ok _, s) =>
          match mUpdate b tx.id
              { status := some Status.COMPLETED,
                providerTransactionId := some extId,
                providerPerformTime := some performTime } s with
          | (Except.error e, s) => (Except.error e, s)
          | (Except.ok _, s) =>
            (Except.ok (PaymeBodyOut.res reqId
              (PaymeResult.perform tx.id performTime PAYME_STATE_COMPLETED)), s)

/-- `handleCancel`. -/
def payme_handleCancel (b : Behavior) (reqId : Int) (p : PaymeParams) :
    M PaymeBodyOut := fun s =>
  if ¬ truthyStr p.extId then (Except.ok (paymeTransactionNotFound reqId), s)
  else
    let extId := p.extId.getD ""
    match mGetByProviderId b "payme" extId s with
    | (Except.error e, s) => (Except.error e, s)
    | (Except.ok none, s) => (Except.ok (paymeTransactionNotFound reqId), s)
    | (Except.ok (some tx), s) =>
      if tx.status = Status.FAILED then
        -- Idempotency: already cancelled
        let cancelTime := orElseNum tx.providerCancelTime
          (jsOrInt tx.updatedAt tx.createdAt)
        let state :=
          if truthyInt tx.providerPerformTime then PAYME_STATE_CANCELLED_AFTER
          else PAYME_STATE_CANCELLED_BEFORE
        (Except.ok (PaymeBodyOut.res reqId
          (PaymeResult.cancel tx.id cancelTime state)), s)
      else
        let cancelTime := b.now
        let afterComplete := tx.status = Status.COMPLETED
        let cancelState :=
          if afterComplete then PAYME_STATE_CANCELLED_AFTER
          else PAYME_STATE_CANCELLED_BEFORE
        let step1 : Except Unit Unit × St :=
          if afterComplete then
            -- Revoke access first, then persist
            mCbCancelled b { tx with
              status := Status.FAILED,
              providerCancelTime := some cancelTime,
              cancelReason := p.reason } s
          else (Except.ok (), s)
        match step1 with
        | (Except.error e, s) => (Except.error e, s)
        | (Except.ok _, s) =>
          match mUpdate b tx.id
              { status := some Status.FAILED,
                providerTransactionId := some extId,
                providerCancelTime := some cancelTime,
                cancelReason := p.reason } s with
          | (Except.error e, s) => (Except.error e, s)
          | (Except.ok _, s) =>
            (Except.ok (PaymeBodyOut.res reqId
              (PaymeResult.cancel tx.id cancelTime cancelState)), s)

/-- `handleCheck`. -/
def payme_handleCheck (b : Behavior) (reqId : Int) (p : PaymeParams) :
    M PaymeBodyOut := fun s =>
  if ¬ truthyStr p.extId then (Except.ok (paymeTransactionNotFound reqId), s)
  else
    match mGetByProviderId b "payme" (p.extId.getD "") s with
    | (Except.error e, s) => (Except.error e, s)
    | (Except.ok none, s) => (Except.ok (paymeTransactionNotFound reqId), s)
    | (Except.ok (some tx), s) =>
      let f := formatPaymeTransaction tx
      (Except.ok (PaymeBodyOut.res reqId
        (PaymeResult.check f.createTime f.performTime f.cancelTime tx.id
          f.state f.reason)), s)

/-- `handleGetStatement` (the `from == null || to == null` check is
presence, not truthiness). -/
def payme_handleGetStatement (b : Behavior) (reqId : Int) (p : PaymeParams) :
    M PaymeBodyOut := fun s =>
  match p.fromTime, p.toTime with
  | some _, some _ =>
    (match mGetByDateRange b "payme" s with
    | (Except.error e, s) => (Except.error e, s)
    | (Except.ok txs, s) =>
      let items := txs.map (fun tx =>
        let f := formatPaymeTransaction tx
        ({ extId := tx.providerTransactionId, time := f.createTime,
           amount := tx.amount, orderId := tx.id,
           create_time := f.createTime, perform_time := f.performTime,
           cancel_time := f.cancelTime, transaction := tx.id,
           state := f.state, reason := f.reason } : PaymeStatementItem))
      (Except.ok (PaymeBodyOut.res reqId (PaymeResult.statement items)), s))
  | _, _ => (Except.ok (paymeInvalidJsonRpc reqId), s)

/-- Route a validated Payme request to its method handler. -/
def payme_route (b : Behavior) (method : String) (reqId : Int)
    (p : PaymeParams) : M PaymeBodyOut :=
  match method with
  | "CheckPerformTransaction" => payme_handleCheckPerform b reqId p
  | "CreateTransaction" => payme_handleCreate b reqId p
  | "PerformTransaction" => payme_handlePerform b reqId p
  | "CancelTransaction" => payme_handleCancel b reqId p
  | "CheckTransaction" => payme_handleCheck b reqId p
  | "GetStatement" => payme_handleGetStatement b reqId p
  | _ => fun s => (Except.ok (paymeMethodNotFound reqId method), s)

/-- `handlePaymeWebhook`: auth, envelope validation, routing, and the
catch-all `try/catch` that turns any collaborator exception into the
internal-error envelope. Always HTTP 200. -/
def handlePaymeWebhook (b : Behavior) (cfg : PaymeConfig) (auth : AuthHeader)
    (body : PaymeBodyIn) : St → PaymeWire × St := fun s =>
  if ¬ verifyPaymeAuth cfg.secretKey auth then
    (⟨200, paymeInsufficientPrivileges 0⟩, s)
  else
    match body with
    | PaymeBodyIn.invalid idGuess =>
      (⟨200, paymeInvalidJsonRpc (idGuess.getD 0)⟩, s)
    | PaymeBodyIn.valid method reqId p =>
      let (out, s1) := mTry (payme_route b method reqId p)
        (fun s => (paymeInternalError reqId, s)) s
      (⟨200, out⟩, s1)

-- =============================================================================
-- Click provider (src/providers/click.ts) and handler
-- (src/handlers/click.handler.ts)
-- =============================================================================

structure ClickConfig where
  serviceId : String
  merchantId : String
  merchantUserId : String
  secretKey : String
deriving DecidableEq, Repr

/-- A Click webhook request body that passed `isClickRequest`
(`click_trans_id != null`).  `amountStr`/`amountNum` and
`actionStr`/`actionNum` are the `String(x)` and `Number(x)` coercions of
one JS value. -/
structure ClickRequest where
  click_trans_id : Int
  service_id : Int
  merchant_trans_id : String
  merchant_prepare_id : Option String := none
  amountStr : String
  amountNum : Rat
  actionStr : String
  actionNum : Int
  errorField : Option Int := none
  sign_time : String
  sign_string : String
deriving Repr

/-- The ordered concatenation hashed by `verifyClickSignature`:
`click_trans_id + service_id + secretKey + merchant_trans_id +
(merchant_prepare_id if action=1, else "") + amount + action + sign_time`. -/
def clickSignSource (secretKey : String) (d : ClickRequest) : String :=
  toString d.click_trans_id ++ toString d.service_id ++ secretKey ++
    d.merchant_trans_id ++
    (if d.actionNum = 1 then d.merchant_prepare_id.getD "" else "") ++
    d.amountStr ++ d.actionStr ++ d.sign_time

/-- `verifyClickSignature`. -/
def verifyClickSignature (md5f : String → String) (secretKey : String)
    (d : ClickRequest) : Bool :=
  md5f (clickSignSource secretKey d) == d.sign_string

/-- A Click flat response body. -/
structure ClickResponse where
  error : Int
  error_note : String
  click_trans_id : Option Int := none
  merchant_trans_id : Option String := none
  merchant_prepare_id : Option String := none
  merchant_confirm_id : Option String := none
deriving DecidableEq, Repr

/-- HTTP wire result of the Click webhook (always status 200). -/
structure ClickWire where
  status : Int
  body : ClickResponse
deriving DecidableEq, Repr

/-- The part of `handleClickWebhook` inside its `try` block: resolution,
external cancellation, amount validation, prepare and complete. -/
def click_core (b : Behavior) (d : ClickRequest) : M ClickResponse := fun s =>
  match mGetById b d.merchant_trans_id s with
  | (Except.error e, s) => (Except.error e, s)
  | (Except.ok first, s) =>
    let afterLookup : Except Unit (Option Transaction) × St :=
      match first with
      | some tx => (Except.ok (some tx), s)
      | none => mGetByShortId b d.merchant_trans_id s
    match afterLookup with
    | (Except.error e, s) => (Except.error e, s)
    | (Except.ok none, s) =>
      (Except.ok ⟨-5, "User/Transaction does not exist", none, none, none, none⟩, s)
    | (Except.ok (some tx), s) =>
      -- External cancellation (Click sent error < 0): `error && error < 0`
      if (match d.errorField with | some e => decide (e < 0) | none => false) then
        match mUpdate b tx.id
            { status := some Status.FAILED,
              providerTransactionId := some (toString d.click_trans_id) } s with
        | (Except.error e, s) => (Except.error e, s)
        | (Except.ok _, s) =>
          (Except.ok ⟨-9, "Transaction cancelled", none, none, none, none⟩, s)
      else
        -- Amount validation: Click sends UZS, the store holds tiyin
        let clickAmountTiyin := jsRound (d.amountNum * 100)
        if (clickAmountTiyin - tx.amount).natAbs > 1 then
          (Except.ok ⟨-2, "Incorrect parameter amount", none, none, none, none⟩, s)
        else if d.actionNum = 0 then
          -- PREPARE
          if tx.status ≠ Status.PENDING ∧ tx.status = Status.COMPLETED then
            (Except.ok ⟨-4, "Already paid", none, none, none, none⟩, s)
          else if tx.status ≠ Status.PENDING ∧ tx.status = Status.FAILED then
            (Except.ok ⟨-9, "Transaction cancelled", none, none, none, none⟩, s)
          else
            match mUpdate b tx.id
                { status := some Status.PREPARED,
                  providerTransactionId := some (toString d.click_trans_id) } s with
            | (Except.error e, s) => (Except.error e, s)
            | (Except.ok _, s) =>
              (Except.ok ⟨0, "Success", some d.click_trans_id,
                some d.merchant_trans_id, some tx.id, none⟩, s)
        else if d.actionNum = 1 then
          -- COMPLETE
          if d.merchant_prepare_id ≠ some tx.id then
            (Except.ok ⟨-6, "Transaction does not exist (ID Mismatch)",
              none, none, none, none⟩, s)
          else if tx.status = Status.COMPLETED then
            -- Idempotency: already completed
            (Except.ok ⟨0, "Success", some d.click_trans_id,
              some d.merchant_trans_id, none, some tx.id⟩, s)
          else if tx.status = Status.FAILED then
            (Except.ok ⟨-9, "Transaction cancelled", none, none, none, none⟩, s)
          else
            let updatedTx := { tx with
              status := Status.COMPLETED,
              providerTransactionId := some (toString d.click_trans_id) }
            -- Grant access first, then persist
            match mCbCompleted b updatedTx s with
            | (Except.error e, s) => (Except.error e, s)
            | (Except.ok _, s) =>
              match mUpdate b tx.id
                  { status := some Status.COMPLETED,
                    providerTransactionId := some (toString d.click_trans_id) } s with
              | (Except.error e, s) => (Except.error e, s)
              | (Except.ok _, s) =>
                (Except.ok ⟨0, "Success", some d.click_trans_id,
                  some d.merchant_trans_id, none, some tx.id⟩, s)
        else
          (Except.ok ⟨-3, "Action not found", none, none, none, none⟩, s)

/-- `handleClickWebhook`: validation, signature check, then the `try`
block with its catch-all internal-error response. Always HTTP 200. -/
def handleClickWebhook (b : Behavior) (cfg : ClickConfig)
    (body : Option ClickRequest) : St → ClickWire × St := fun s =>
  match body with
  | none => (⟨200, ⟨-8, "Invalid Request", none, none, none, none⟩⟩, s)
  | some d =>
    if ¬ verifyClickSignature b.md5 cfg.secretKey d then
      (⟨200, ⟨-1, "SIGN CHECK FAILED", none, none, none, none⟩⟩, s)
    else
      let (out, s1) := mTry (click_core b d)
        (fun s => (⟨-7, "Internal system error", none, none, none, none⟩, s)) s
      (⟨200, out⟩, s1)

-- =============================================================================
-- Paynet provider (src/providers/paynet.ts) and handler
-- (src/handlers/paynet.handler.ts)
-- =============================================================================

def PAYNET_STATE_SUCCESS : Int := 1
def PAYNET_STATE_CANCELLED : Int := 2
def PAYNET_STATE_NOT_FOUND : Int := 3

/-- `mapToPaynetState`. -/
def mapToPaynetState (st : Status) : Int :=
  match st with
  | Status.COMPLETED => PAYNET_STATE_SUCCESS
  | Status.FAILED => PAYNET_STATE_CANCELLED
  | Status.PENDING => PAYNET_STATE_SUCCESS
  | Status.PREPARED => PAYNET_STATE_SUCCESS

structure PaynetConfig where
  serviceId : String
  username : String
  password : String
deriving DecidableEq, Repr

/-- Paynet request params (`params.fields?.order_id` / `?.client_id`
flattened). -/
structure PaynetParams where
  serviceId : Option Int := none
  transactionId : Option Int := none
  amount : Option Int := none
  order_id : Option String := none
  client_id : Option String := none
  dateFrom : Option String := none
  dateTo : Option String := none
  newPassword : Option String := none
deriving DecidableEq, Repr

/-- `params.fields?.order_id || params.fields?.client_id`. -/
def paynetClientId (p : PaynetParams) : Option String :=
  if truthyStr p.order_id then p.order_id
  else if truthyStr p.client_id then p.client_id
  else none

/-- The webhook body after `isPaynetRequest`: `invalid` carries the value
of `data?.id || 0` used in the error envelope. -/
inductive PaynetBodyIn where
  | invalid (idGuess : Int)
  | valid (method : String) (id : Int) (params : PaynetParams)
deriving DecidableEq, Repr

/-- `providerTrnId` in the CheckTransaction response is the number `0` when
the transaction is unknown and the internal id string otherwise. -/
inductive PaynetTrnRef where
  | num (n : Int)
  | str (s : String)
deriving DecidableEq, Repr

structure PaynetStatementItem where
  amount : Int
  providerTrnId : String
  transactionId : Int
  timestamp : String
deriving DecidableEq, Repr

/-- A Paynet JSON-RPC 2.0 success result, one constructor per response
shape (the `GetInformation` response models the `name` and `amount` display
fields; extra user-info fields spread into it are not modelled). -/
inductive PaynetResult where
  | info (status : String) (timestamp : String) (name : String) (amount : Int)
  | perform (providerTrnId : String) (timestamp : String) (clientId : String)
  | check (transactionState : Int) (timestamp : String) (providerTrnId : PaynetTrnRef)
  | cancel (providerTrnId : String) (timestamp : String) (transactionState : Int)
  | statement (items : List PaynetStatementItem)
  | password
deriving DecidableEq, Repr

/-- A Paynet response body (error messages are constant per code except the
method name echoed by method-not-found, carried in `data`). -/
inductive PaynetBodyOut where
  | err (id : Int) (code : Int) (data : Option String)
  | res (id : Int) (r : PaynetResult)
deriving DecidableEq, Repr

def paynetAccessDenied (id : Int) : PaynetBodyOut := PaynetBodyOut.err id 601 none
def paynetClientNotFound (id : Int) : PaynetBodyOut := PaynetBodyOut.err id 302 none
def paynetTransactionNotFound (id : Int) : PaynetBodyOut := PaynetBodyOut.err id 203 none
def paynetTransactionExists (id : Int) : PaynetBodyOut := PaynetBodyOut.err id 201 none
def paynetTransactionCancelled (id : Int) : PaynetBodyOut := PaynetBodyOut.err id 202 none
def paynetInvalidAmount (id : Int) : PaynetBodyOut := PaynetBodyOut.err id 413 none
def paynetMethodNotFound (id : Int) (method : String) : PaynetBodyOut :=
  PaynetBodyOut.err id (-32601) (some method)
def paynetMissingParams (id : Int) : PaynetBodyOut := PaynetBodyOut.err id (-32602) none
def paynetInternalError (id : Int) : PaynetBodyOut := PaynetBodyOut.err id (-32603) none
def paynetInvalidRpcRequest (id : Int) : PaynetBodyOut := PaynetBodyOut.err id (-32600) none
def paynetInvalidDateFormat (id : Int) : PaynetBodyOut := PaynetBodyOut.err id 414 none
def paynetServiceNotFound (id : Int) : PaynetBodyOut := PaynetBodyOut.err id 305 none

/-- HTTP wire result of the Paynet webhook. -/
structure PaynetWire where
  status : Int
  body : PaynetBodyOut
deriving DecidableEq, Repr

/-- `handleGetInformation`. -/
def paynet_handleGetInformation (b : Behavior) (reqId : Int) (p : PaynetParams) :
    M PaynetBodyOut := fun s =>
  match paynetClientId p with
  | none => (Except.ok (paynetMissingParams reqId), s)
  | some clientId =>
    match mGetByShortId b clientId s with
    | (Except.error e, s) => (Except.error e, s)
    | (Except.ok none, s) => (Except.ok (paynetClientNotFound reqId), s)
    | (Except.ok (some tx), s) =>
      if tx.status ≠ Status.PENDING then (Except.ok (paynetClientNotFound reqId), s)
      else
        let fix : Except Unit Unit × St :=
          if tx.provider ≠ "paynet" then
            mUpdate b tx.id { provider := some "paynet" } s
          else (Except.ok (), s)
        match fix with
        | (Except.error e, s) => (Except.error e, s)
        | (Except.ok _, s) =>
          let userInfo : Except Unit (Option String) × St :=
            if b.hasUserInfoCb then
              if b.userInfoThrows then (Except.error (), s)
              else (Except.ok b.userInfoName, s)
            else (Except.ok none, s)
          match userInfo with
          | (Except.error e, s) => (Except.error e, s)
          | (Except.ok nm, s) =>
            let name :=
              match nm with
              | some n => if n = "" then "User" else n
              | none => "User"
            let amountInUzs := (tiyinToUzs tx.amount).floor
            (Except.ok (PaynetBodyOut.res reqId
              (PaynetResult.info "0" b.tsNow name amountInUzs)), s)

/-- `handlePerformTransaction` — note: the store write happens before the
completion callback, both inside this method's local `try`. -/
def paynet_handlePerformTransaction (b : Behavior) (reqId : Int)
    (p : PaynetParams) : M PaynetBodyOut := fun s =>
  if ¬ (truthyInt p.transactionId ∧ truthyInt p.amount ∧
      truthyStr (paynetClientId p)) then
    (Except.ok (paynetMissingParams reqId), s)
  else
    let trnId := p.transactionId.getD 0
    let amount := p.amount.getD 0
    let clientId := (paynetClientId p).getD ""
    match mGetByShortId b clientId s with
    | (Except.error e, s) => (Except.error e, s)
    | (Except.ok none, s) => (Except.ok (paynetClientNotFound reqId), s)
    | (Except.ok (some tx), s) =>
      let fix : Except Unit Unit × St :=
        if tx.provider ≠ "paynet" then
          mUpdate b tx.id { provider := some "paynet" } s
        else (Except.ok (), s)
      match fix with
      | (Except.error e, s) => (Except.error e, s)
      | (Except.ok _, s) =>
        if amount ≠ tx.amount then (Except.ok (paynetInvalidAmount reqId), s)
        else if tx.status = Status.COMPLETED then
          (Except.ok (paynetTransactionExists reqId), s)
        else if tx.status = Status.FAILED then
          (Except.ok (paynetTransactionCancelled reqId), s)
        else
          let inner : M PaynetBodyOut := fun s =>
            match mUpdate b tx.id
                { status := some Status.COMPLETED,
                  providerTransactionId := some (toString trnId) } s with
            | (Except.error e, s) => (Except.error e, s)
            | (Except.ok _, s) =>
              match mCbCompleted b tx s with
              | (Except.error e, s) => (Except.error e, s)
              | (Except.ok _, s) =>
                (Except.ok (PaynetBodyOut.res reqId
                  (PaynetResult.perform tx.id b.tsNow clientId)), s)
          let (out, s1) := mTry inner (fun s => (paynetInternalError reqId, s)) s
          (Except.ok out, s1)

/-- `handleCheckTransaction`. -/
def paynet_handleCheckTransaction (b : Behavior) (reqId : Int)
    (p : PaynetParams) : M PaynetBodyOut := fun s =>
  if ¬ truthyInt p.transactionId then (Except.ok (paynetMissingParams reqId), s)
  else
    match mGetByProviderId b "paynet" (toString (p.transactionId.getD 0)) s with
    | (Except.error e, s) => (Except.error e, s)
    | (Except.ok none, s) =>
      (Except.ok (PaynetBodyOut.res reqId
        (PaynetResult.check PAYNET_STATE_NOT_FOUND b.tsCheck
          (PaynetTrnRef.num 0))), s)
    | (Except.ok (some tx), s) =>
      (Except.ok (PaynetBodyOut.res reqId
        (PaynetResult.check (mapToPaynetState tx.status) b.tsCheck
          (PaynetTrnRef.str tx.id))), s)

/-- `handleCancelTransaction`. -/
def paynet_handleCancelTransaction (b : Behavior) (reqId : Int)
    (p : PaynetParams) : M PaynetBodyOut := fun s =>
  if ¬ truthyInt p.transactionId then (Except.ok (paynetMissingParams reqId), s)
  else
    let trnId := p.transactionId.getD 0
    match mGetByProviderId b "paynet" (toString trnId) s with
    | (Except.error e, s) => (Except.error e, s)
    | (Except.ok none, s) => (Except.ok (paynetTransactionNotFound reqId), s)
    | (Except.ok (some tx), s) =>
      if tx.status = Status.FAILED then
        (Except.ok (paynetTransactionCancelled reqId), s)
      else
        let revoke : Except Unit Unit × St :=
          if tx.status = Status.COMPLETED then mCbCancelled b tx s
          else (Except.ok (), s)
        match revoke with
        | (Except.error e, s) => (Except.error e, s)
        | (Except.ok _, s) =>
          match mUpdate b tx.id
              { status := some Status.FAILED,
                providerTransactionId := some (toString trnId) } s with
          | (Except.error e, s) => (Except.error e, s)
          | (Except.ok _, s) =>
            (Except.ok (PaynetBodyOut.res reqId
              (PaynetResult.cancel tx.id b.tsNow PAYNET_STATE_CANCELLED)), s)

/-- `handleGetStatement`. -/
def paynet_handleGetStatement (b : Behavior) (reqId : Int) (p : PaynetParams) :
    M PaynetBodyOut := fun s =>
  if ¬ (truthyStr p.dateFrom ∧ truthyStr p.dateTo) then
    (Except.ok (paynetInvalidDateFormat reqId), s)
  else
    match mGetByDateRange b "paynet" s with
    | (Except.error e, s) => (Except.error e, s)
    | (Except.ok txs, s) =>
      let items := txs.map (fun tx =>
        ({ amount := (tiyinToUzs tx.amount).floor,
           providerTrnId := tx.id,
           transactionId := jsNumberOr0 tx.providerTransactionId,
           timestamp := b.fmtTs (jsOrInt tx.updatedAt tx.createdAt) } :
          PaynetStatementItem))
      (Except.ok (PaynetBodyOut.res reqId (PaynetResult.statement items)), s)

/-- `handleChangePassword`. -/
def paynet_handleChangePassword (b : Behavior) (reqId : Int) (p : PaynetParams) :
    M PaynetBodyOut := fun s =>
  if ¬ truthyStr p.newPassword then (Except.ok (paynetMissingParams reqId), s)
  else
    let cb : Except Unit Unit × St :=
      if b.hasPasswordCb then
        if b.passwordThrows then (Except.error (), s) else (Except.ok (), s)
      else (Except.ok (), s)
    match cb with
    | (Except.error e, s) => (Except.error e, s)
    | (Except.ok _, s) =>
      (Except.ok (PaynetBodyOut.res reqId PaynetResult.password), s)

/-- Route a validated Paynet request to its method handler. -/
def paynet_route (b : Behavior) (method : String) (reqId : Int)
    (p : PaynetParams) : M PaynetBodyOut :=
  match method with
  | "GetInformation" => paynet_handleGetInformation b reqId p
  | "PerformTransaction" => paynet_handlePerformTransaction b reqId p
  | "CheckTransaction" => paynet_handleCheckTransaction b reqId p
  | "CancelTransaction" => paynet_handleCancelTransaction b reqId p
  | "GetStatement" => paynet_handleGetStatement b reqId p
  | "ChangePassword" => paynet_handleChangePassword b reqId p
  | _ => fun s => (Except.ok (paynetMethodNotFound reqId method), s)

/-- `handlePaynetWebhook`: auth (the sole 401), envelope validation,
serviceId check, then routing with **no** surrounding `try/catch`: a
collaborator exception propagates out of the handler (`Except.error`). -/
def handlePaynetWebhook (b : Behavior) (cfg : PaynetConfig)
    (auth : AuthHeader) (body : PaynetBodyIn) : M PaynetWire := fun s =>
  if ¬ verifyPaynetAuth cfg.username cfg.password auth then
    (Except.ok ⟨401, paynetAccessDenied 0⟩, s)
  else
    match body with
    | PaynetBodyIn.invalid idGuess =>
      (Except.ok ⟨200, paynetInvalidRpcRequest idGuess⟩, s)
    | PaynetBodyIn.valid method reqId p =>
      if truthyInt p.serviceId ∧ toString (p.serviceId.getD 0) ≠ cfg.serviceId then
        (Except.ok ⟨200, paynetServiceNotFound reqId⟩, s)
      else
        match paynet_route b method reqId p s with
        | (Except.error e, s) => (Except.error e, s)
        | (Except.ok out, s) => (Except.ok ⟨200, out⟩, s)

-- =============================================================================
-- Unified request step (all three webhook entry points)
-- =============================================================================

/-- One webhook invocation of any provider. -/
inductive AnyRequest where
  | payme (cfg : PaymeConfig) (auth : AuthHeader) (body : PaymeBodyIn)
  | click (cfg : ClickConfig) (body : Option ClickRequest)
  | paynet (cfg : PaynetConfig) (auth : AuthHeader) (body : PaynetBodyIn)

/-- Final store contents after one invocation (for Paynet the store at the
moment an escaping exception leaves the handler). -/
def runRequest (b : Behavior) (r : AnyRequest) (store : Store) : Store :=
  match r with
  | AnyRequest.payme cfg auth body =>
    ((handlePaymeWebhook b cfg auth body ⟨store, []⟩).2).store
  | AnyRequest.click cfg body =>
    ((handleClickWebhook b cfg body ⟨store, []⟩).2).store
  | AnyRequest.paynet cfg auth body =>
    ((handlePaynetWebhook b cfg auth body ⟨store, []⟩).2).store

/-- Store states along a sequence of invocations, initial store first. -/
def storesTrace : List (Behavior × AnyRequest) → Store → List Store
  | [], st => [st]
  | step :: rest, st => st :: storesTrace rest (runRequest step.1 step.2 st)

-- =============================================================================
-- Status-transition order
-- =============================================================================

/-- Rank of a status in the lifecycle order
PENDING < PREPARED < COMPLETED < FAILED. -/
def statusRank : Status → Nat
  | Status.PENDING => 0
  | Status.PREPARED => 1
  | Status.COMPLETED => 2
  | Status.FAILED => 3

/-- A single store write may keep the status or move it forward in the
lifecycle order. -/
def allowedStep (a c : Status) : Prop :=
  statusRank a ≤ statusRank c

instance (a c : Status) : Decidable (allowedStep a c) := by
  unfold allowedStep; infer_instance

/-- The edge set asserted by the specification: PENDING→PREPARED,
PREPARED→COMPLETED, PENDING→FAILED, PREPARED→FAILED, COMPLETED→FAILED
(status changes only; self-loops are not status changes). -/
def specClaimedEdge (a c : Status) : Prop :=
  (a = Status.PENDING ∧ c = Status.PREPARED) ∨
  (a = Status.PREPARED ∧ c = Status.COMPLETED) ∨
  (a = Status.PENDING ∧ c = Status.FAILED) ∨
  (a = Status.PREPARED ∧ c = Status.FAILED) ∨
  (a = Status.COMPLETED ∧ c = Status.FAILED)

instance (a c : Status) : Decidable (specClaimedEdge a c) := by
  unfold specClaimedEdge; infer_instance

/-- Pointwise evolution of a store: same transactions (by position and id),
each status moving only forward in the lifecycle order. -/
def StoreEvolves (a c : Store) : Prop :=
  List.Forall₂ (fun t u => t.id = u.id ∧ allowedStep t.status u.status) a c

/-- Status (if any) of the transaction with a given id. -/
def statusOfId (st : Store) (id : String) : Option Status :=
  (getTransactionById st id).map (fun t => t.status)

/-- Relation between consecutive per-id status observations. -/
def statusStep (o1 o2 : Option Status) : Prop :=
  (o1 = none → o2 = none) ∧
  ∀ x, o1 = some x → ∃ y, o2 = some y ∧ allowedStep x y

/-- Per-id status observations along an invocation sequence. -/
def statusList (steps : List (Behavior × AnyRequest)) (st : Store)
    (id : String) : List (Option Status) :=
  (storesTrace steps st).map (fun x => statusOfId x id)

/-- Count of observed COMPLETED→FAILED moves in a status trace. -/
def cfCount (l : List (Option Status)) : Nat :=
  (l.zip l.tail).countP
    (fun pr => pr.1 == some Status.COMPLETED && pr.2 == some Status.FAILED)

def testTx : Transaction :=
  { id := "tx-1", userId := "user-1", planId := "premium_monthly",
    provider := "payme", amount := 5000000, status := Status.PENDING,
    providerTransactionId := none, providerCreateTime := none,
    providerPerformTime := none, providerCancelTime := none,
    cancelReason := none, shortId := none,
    createdAt := 1700000000000, updatedAt := 1700000000000 }

def quietBehavior : Behavior := { now := 1700000500000 }

def paynetTestConfig : PaynetConfig :=
  { serviceId := "123456", username := "admin", password := "secret123" }

def paynetTestAuth : AuthHeader := AuthHeader.basic "admin" "secret123"

def paymeTestConfig : PaymeConfig :=
  { merchantId := "test-merchant", secretKey := "test-secret" }

def paymeTestAuth : AuthHeader := AuthHeader.basic "Paycom" "test-secret"

/-- A PENDING Paynet transaction with a short id, as in the repository's
own Paynet tests. -/
def paynetPendingTx : Transaction :=
  { testTx with provider := "paynet", shortId := some "12345" }

def paynetPerformBody : PaynetBodyIn :=
  PaynetBodyIn.valid "PerformTransaction" 1
    { transactionId := some 777, amount := some 5000000,
      order_id := some "12345" }

-- =============================================================================
-- C3
-- =============================================================================

def clickTestConfig : ClickConfig :=
  { serviceId := "80012", merchantId := "44439", merchantUserId := "61733",
    secretKey := "test-secret" }

def clickBadSigRequest : ClickRequest :=
  { click_trans_id := 12345, service_id := 80012,
    merchant_trans_id := "tx-1", merchant_prepare_id := none,
    amountStr := "50000", amountNum := 50000, actionStr := "0",
    actionNum := 0, errorField := some 0,
    sign_time := "2025-01-01 12:00:00", sign_string := "invalid-hash" }

/-- A COMPLETED Click transaction. -/
def clickCompletedTx : Transaction :=
  { testTx with
    provider := "click", status := Status.COMPLETED,
    providerTransactionId := some "99" }

/-- A signature-valid Click webhook carrying `error = -1` (the opaque MD5 of
`quietBehavior` hashes everything to `""`, so `sign_string = ""` verifies). -/
def clickCancelRequest : ClickRequest :=
  { click_trans_id := 12345, service_id := 80012,
    merchant_trans_id := "tx-1", merchant_prepare_id := none,
    amountStr := "50000", amountNum := 50000, actionStr := "0",
    actionNum := 0, errorField := some (-1),
    sign_time := "2025-01-01 12:00:00", sign_string := "" }

/-- A COMPLETED Paynet transaction known to the provider as `777`. -/
def paynetCompletedTx : Transaction :=
  { testTx with
    provider := "paynet", status := Status.COMPLETED,
    providerTransactionId := some "777", shortId := some "12345" }

def paynetCancelBody : PaynetBodyIn :=
  PaynetBodyIn.valid "CancelTransaction" 1 { transactionId := some 777 }

/-- A wrong-amount Click request (signature-valid under the opaque hash). -/
def clickWrongAmountRequest : ClickRequest :=
  { click_trans_id := 12345, service_id := 80012,
    merchant_trans_id := "tx-1", merchant_prepare_id := none,
    amountStr := "99999", amountNum := 99999, actionStr := "0",
    actionNum := 0, errorField := some 0,
    sign_time := "2025-01-01 12:00:00", sign_string := "" }

def clickTx : Transaction := { testTx with provider := "click" }

/-- A PREPARED Payme transaction whose preparation is older than 12 hours
relative to `lateBehavior.now`. -/
def paymeExpiredTx : Transaction :=
  { testTx with
    status := Status.PREPARED, providerTransactionId := some "ext-old",
    providerCreateTime := some 1700000000000 }

def lateBehavior : Behavior := { now := 1700050000000 }

def paymeReplaceParams : PaymeParams :=
  { extId := some "ext-new", time := some 1700050000001,
    amount := some 5000000, orderId := some "tx-1" }

/-- States the Payme flow itself produces: a transaction has reached
COMPLETED iff its perform time is set (truthy); the perform time is set
only on COMPLETED (or later FAILED-after-refund) transactions. -/
def PaymeConsistent (st : Store) : Prop :=
  ∀ t ∈ st,
    (t.status = Status.COMPLETED → truthyInt t.providerPerformTime = true) ∧
    (truthyInt t.providerPerformTime = true →
      t.status = Status.COMPLETED ∨ t.status = Status.FAILED)

/-- The sequence of (response, state) pairs produced by issuing the same
Payme request repeatedly, each call running against the store the previous
call left behind (each call starts a fresh event trace). -/
def paymeCalls (bs : Nat → Behavior) (method : String) (reqId : Int)
    (p : PaymeParams) (st : Store) : Nat → Except Unit PaymeBodyOut × St
  | 0 => payme_route (bs 0) method reqId p ⟨st, []⟩
  | n + 1 => payme_route (bs (n + 1)) method reqId p
      ⟨((paymeCalls bs method reqId p st n).2).store, []⟩

/-- Total number of completion/cancellation callback invocations across
calls `0..n` of `paymeCalls`. -/
def paymeCbTotal (bs : Nat → Behavior) (method : String) (reqId : Int)
    (p : PaymeParams) (st : Store) : Nat → Nat
  | 0 => cbCount ((paymeCalls bs method reqId p st 0).2).events
  | n + 1 => paymeCbTotal bs method reqId p st n +
      cbCount ((paymeCalls bs method reqId p st (n + 1)).2).events

/-- A COMPLETED Payme transaction with no stored perform time (reachable
only outside the Payme flow itself). -/
def c4CexTx : Transaction :=
  { id := "tx-1", userId := "u-1", planId := "plan-1", provider := "payme",
    amount := 5000000, status := Status.COMPLETED,
    providerTransactionId := some "pm-1",
    providerCreateTime := some 1699990000000, providerPerformTime := none,
    providerCancelTime := none, cancelReason := none, shortId := none,
    createdAt := 1699990000000, updatedAt := 1699990000000 }

/-- `CancelTransaction` params naming `c4CexTx`'s Payme transaction id. -/
def c4CexParams : PaymeParams := { extId := some "pm-1", reason := some 5 }

/-- A PREPARED Payme transaction awaiting `PerformTransaction`. -/
def c4wTx : Transaction :=
  { id := "tx-1", userId := "u-1", planId := "plan-1", provider := "payme",
    amount := 5000000, status := Status.PREPARED,
    providerTransactionId := some "pm-1",
    providerCreateTime := some 1700000000000, providerPerformTime := none,
    providerCancelTime := none, cancelReason := none, shortId := none,
    createdAt := 1700000000000, updatedAt := 1700000000000 }

/-- `PerformTransaction` params naming `c4wTx`'s Payme transaction id. -/
def c4wParams : PaymeParams := { extId := some "pm-1" }

theorem storeEvolves_refl (a : Store) : StoreEvolves a a := by
  unfold StoreEvolves
  induction a with
  | nil => exact List.Forall₂.nil
  | cons t rest ih => exact List.Forall₂.cons ⟨rfl, Nat.le_refl _⟩ ih

theorem storeEvolves_trans {a c e : Store}
    (h1 : StoreEvolves a c) (h2 : StoreEvolves c e) : StoreEvolves a e := by
  unfold StoreEvolves at *
  induction h1 generalizing e with
  | nil => cases h2; exact List.Forall₂.nil
  | cons hrel _ ih =>
    cases h2 with
    | cons hrel2 htail2 =>
      exact List.Forall₂.cons
        ⟨hrel.1.trans hrel2.1, Nat.le_trans hrel.2 hrel2.2⟩ (ih htail2)

-- =============================================================================
-- Store-level helper lemmas
-- =============================================================================

theorem applyUpdate_id (t : Transaction) (f : UpdateFields) :
    (applyUpdate t f).id = t.id := rfl

theorem updateTransaction_uniqueIds {st : Store} (id : String)
    (f : UpdateFields) (h : UniqueIds st) :
    UniqueIds (updateTransaction st id f) := by
  unfold UniqueIds updateTransaction at *
  rw [List.pairwise_map]
  refine h.imp_of_mem ?_
  intro a c _ _ hne
  by_cases ha : a.id == id <;> by_cases hc : c.id == id <;>
    simp [ha, hc, applyUpdate_id, hne]

theorem mem_unique_of_find? {st : Store} {p : Transaction → Bool}
    {tx : Transaction} (hf : st.find? p = some tx) (hu : UniqueIds st) :
    ∀ t ∈ st, t.id = tx.id → t = tx := by
  induction st with
  | nil => simp at hf
  | cons a rest ih =>
    rw [List.find?_cons] at hf
    by_cases hp : p a
    · rw [hp] at hf
      injection hf with hf
      subst hf
      intro t ht hid
      rcases List.mem_cons.mp ht with h | h
      · exact h
      · exact absurd hid (by
          have := (List.pairwise_cons.mp hu).1 t h
          exact fun he => this he.symm)
    · rw [Bool.of_not_eq_true hp] at hf
      intro t ht hid
      have hmem : tx ∈ rest := List.mem_of_find?_eq_some hf
      rcases List.mem_cons.mp ht with h | h
      · subst h
        exact absurd hid ((List.pairwise_cons.mp hu).1 tx hmem)
      · exact ih hf (List.pairwise_cons.mp hu).2 t h hid

theorem tx_mem_of_getById {st : Store} {id : String} {tx : Transaction}
    (h : getTransactionById st id = some tx) : tx ∈ st :=
  List.mem_of_find?_eq_some h

theorem tx_mem_of_getByShortId {st : Store} {sh : String} {tx : Transaction}
    (h : getTransactionByShortId st sh = some tx) : tx ∈ st :=
  List.mem_of_find?_eq_some h

theorem tx_mem_of_getByProviderId {st : Store} {p e : String} {tx : Transaction}
    (h : getTransactionByProviderId st p e = some tx) : tx ∈ st :=
  List.mem_of_find?_eq_some h

/-- A guarded update evolves the store: every stored transaction carrying
the written id must move forward under the written status. -/
theorem storeEvolves_update {st : Store} (id : String) (f : UpdateFields)
    (H : ∀ t ∈ st, t.id = id → allowedStep t.status ((f.status).getD t.status)) :
    StoreEvolves st (updateTransaction st id f) := by
  unfold StoreEvolves updateTransaction
  rw [List.forall₂_map_right_iff]
  rw [List.forall₂_same]
  intro t ht
  by_cases hid : t.id == id
  · simp only [hid, if_true]
    exact ⟨(applyUpdate_id t f).symm, H t ht (by exact of_decide_eq_true hid)⟩
  · simp only [hid, if_false]
    exact ⟨rfl, Nat.le_refl _⟩

/-- An update whose `status` field is absent evolves the store trivially. -/
theorem storeEvolves_update_noStatus {st : Store} (id : String)
    (f : UpdateFields) (hf : f.status = none) :
    StoreEvolves st (updateTransaction st id f) := by
  refine storeEvolves_update id f ?_
  intro t _ _
  rw [hf]
  exact Nat.le_refl _

-- =============================================================================
-- Projection lemmas for the effect primitives
-- =============================================================================

@[simp] theorem emit_store (e : Event) (s : St) : (emit e s).store = s.store := rfl

@[simp] theorem mGetById_store (b : Behavior) (id : String) (s : St) :
    ((mGetById b id s).2).store = s.store := by
  unfold mGetById; split <;> rfl

@[simp] theorem mGetByShortId_store (b : Behavior) (sh : String) (s : St) :
    ((mGetByShortId b sh s).2).store = s.store := by
  unfold mGetByShortId; split <;> rfl

@[simp] theorem mGetByProviderId_store (b : Behavior) (p e : String) (s : St) :
    ((mGetByProviderId b p e s).2).store = s.store := by
  unfold mGetByProviderId; split <;> rfl

@[simp] theorem mGetByDateRange_store (b : Behavior) (p : String) (s : St) :
    ((mGetByDateRange b p s).2).store = s.store := by
  unfold mGetByDateRange; split <;> rfl

@[simp] theorem mCbCompleted_store (b : Behavior) (t : Transaction) (s : St) :
    ((mCbCompleted b t s).2).store = s.store := by
  unfold mCbCompleted; split <;> rfl

@[simp] theorem mCbCancelled_store (b : Behavior) (t : Transaction) (s : St) :
    ((mCbCancelled b t s).2).store = s.store := by
  unfold mCbCancelled; split <;> rfl

/-- The store after `mUpdate` is either unchanged (rejected write) or the
updated store. -/
theorem mUpdate_store (b : Behavior) (id : String) (f : UpdateFields) (s : St) :
    ((mUpdate b id f s).2).store = s.store ∨
    ((mUpdate b id f s).2).store = updateTransaction s.store id f := by
  unfold mUpdate
  split
  · exact Or.inl rfl
  · exact Or.inr rfl

/-- A guarded `mUpdate` evolves the store. -/
theorem storeEvolves_mUpdate (b : Behavior) (id : String) (f : UpdateFields)
    (s : St)
    (H : ∀ t ∈ s.store, t.id = id → allowedStep t.status ((f.status).getD t.status)) :
    StoreEvolves s.store ((mUpdate b id f s).2).store := by
  rcases mUpdate_store b id f s with h | h
  · rw [h]; exact storeEvolves_refl _
  · rw [h]; exact storeEvolves_update id f H

-- =============================================================================
-- Store effect of each Payme method
-- =============================================================================

theorem payme_handleCheckPerform_store (b : Behavior) (reqId : Int)
    (p : PaymeParams) (s : St) :
    ((payme_handleCheckPerform b reqId p s).2).store = s.store := by
  unfold payme_handleCheckPerform
  split
  · rfl
  · rcases hres : mGetById b (p.orderId.getD "") s with ⟨r, s1⟩
    have hs1 : s1.store = s.store := by
      have h := mGetById_store b (p.orderId.getD "") s
      rw [hres] at h; exact h
    rcases r with e | o
    · exact hs1
    · rcases o with _ | tx
      · exact hs1
      · dsimp only
        repeat' split
        all_goals exact hs1

theorem mGetById_ok {b : Behavior} {id : String} {s : St}
    {v : Option Transaction} {s1 : St}
    (h : mGetById b id s = (Except.ok v, s1)) :
    getTransactionById s.store id = v := by
  unfold mGetById at h
  split at h
  · exact absurd (congrArg Prod.fst h) (by simp)
  · have := congrArg Prod.fst h
    simpa using this

theorem mGetByShortId_ok {b : Behavior} {sh : String} {s : St}
    {v : Option Transaction} {s1 : St}
    (h : mGetByShortId b sh s = (Except.ok v, s1)) :
    getTransactionByShortId s.store sh = v := by
  unfold mGetByShortId at h
  split at h
  · exact absurd (congrArg Prod.fst h) (by simp)
  · have := congrArg Prod.fst h
    simpa using this

theorem mGetByProviderId_ok {b : Behavior} {p e : String} {s : St}
    {v : Option Transaction} {s1 : St}
    (h : mGetByProviderId b p e s = (Except.ok v, s1)) :
    getTransactionByProviderId s.store p e = v := by
  unfold mGetByProviderId at h
  split at h
  · exact absurd (congrArg Prod.fst h) (by simp)
  · have := congrArg Prod.fst h
    simpa using this

theorem payme_handleCheck_store (b : Behavior) (reqId : Int)
    (p : PaymeParams) (s : St) :
    ((payme_handleCheck b reqId p s).2).store = s.store := by
  unfold payme_handleCheck
  split
  · rfl
  · rcases hres : mGetByProviderId b "payme" (p.extId.getD "") s with ⟨r, s1⟩
    have hs1 : s1.store = s.store := by
      have h := mGetByProviderId_store b "payme" (p.extId.getD "") s
      rw [hres] at h; exact h
    rcases r with e | o
    · exact hs1
    · rcases o with _ | tx
      · exact hs1
      · exact hs1

theorem payme_handleGetStatement_store (b : Behavior) (reqId : Int)
    (p : PaymeParams) (s : St) :
    ((payme_handleGetStatement b reqId p s).2).store = s.store := by
  unfold payme_handleGetStatement
  rcases p.fromTime with _ | f
  · rfl
  · rcases p.toTime with _ | t
    · rfl
    · rcases hres : mGetByDateRange b "payme" s with ⟨r, s1⟩
      have hs1 : s1.store = s.store := by
        have h := mGetByDateRange_store b "payme" s
        rw [hres] at h; exact h
      rcases r with e | txs
      · exact hs1
      · exact hs1

theorem payme_handleCreate_evolves (b : Behavior) (reqId : Int)
    (p : PaymeParams) (s : St) (hu : UniqueIds s.store) :
    StoreEvolves s.store ((payme_handleCreate b reqId p s).2).store := by
  unfold payme_handleCreate
  rcases p.orderId with _ | orderId
  · exact storeEvolves_refl _
  rcases p.extId with _ | extId
  · exact storeEvolves_refl _
  rcases p.time with _ | time
  · exact storeEvolves_refl _
  rcases p.amount with _ | amount
  · exact storeEvolves_refl _
  dsimp only
  split
  · exact storeEvolves_refl _
  rcases hres : mGetById b orderId s with ⟨r, s1⟩
  have hs1 : s1.store = s.store := by
    have h := mGetById_store b orderId s
    rw [hres] at h; exact h
  rcases r with e | o
  · rw [hs1]; exact storeEvolves_refl _
  rcases o with _ | tx
  · rw [hs1]; exact storeEvolves_refl _
  have htx : tx ∈ s.store := tx_mem_of_getById (mGetById_ok hres)
  dsimp only
  split
  · rw [hs1]; exact storeEvolves_refl _
  split
  · rw [hs1]; exact storeEvolves_refl _
  split
  · -- 12-hour expiry branch: guarded by tx.status = PREPARED
    rename_i hcond
    split
    · rename_i hexp
      rcases hupd : mUpdate b tx.id
          { providerTransactionId := some extId,
            providerCreateTime := some time,
            status := some Status.PREPARED } s1 with ⟨r2, s2⟩
      have hev : StoreEvolves s1.store s2.store := by
        have h := storeEvolves_mUpdate b tx.id
          { providerTransactionId := some extId,
            providerCreateTime := some time,
            status := some Status.PREPARED } s1 ?_
        · rw [hupd] at h; exact h
        · intro t ht hid
          rw [hs1] at ht
          have := mem_unique_of_find? (mGetById_ok hres) hu t ht hid
          subst this
          rw [hexp.1]
          simp [allowedStep, statusRank]
      rw [← hs1]
      rcases r2 with e2 | u2
      · exact hev
      · exact hev
    · rw [hs1]; exact storeEvolves_refl _
  split
  · rw [hs1]; exact storeEvolves_refl _
  · -- fresh PENDING/PREPARED → PREPARED
    rename_i hdiff hterm
    rcases hupd : mUpdate b tx.id
        { status := some Status.PREPARED,
          providerTransactionId := some extId,
          providerCreateTime := some time } s1 with ⟨r2, s2⟩
    have hev : StoreEvolves s1.store s2.store := by
      have h := storeEvolves_mUpdate b tx.id
        { status := some Status.PREPARED,
          providerTransactionId := some extId,
          providerCreateTime := some time } s1 ?_
      · rw [hupd] at h; exact h
      · intro t ht hid
        rw [hs1] at ht
        have := mem_unique_of_find? (mGetById_ok hres) hu t ht hid
        subst this
        rcases hst : t.status with _ | _ | _ | _
        · simp [allowedStep, statusRank]
        · simp [allowedStep, statusRank]
        · exact absurd (Or.inl hst) hterm
        · exact absurd (Or.inr hst) hterm
    rw [← hs1]
    rcases r2 with e2 | u2
    · exact hev
    · exact hev

theorem payme_handlePerform_evolves (b : Behavior) (reqId : Int)
    (p : PaymeParams) (s : St) (hu : UniqueIds s.store) :
    StoreEvolves s.store ((payme_handlePerform b reqId p s).2).store := by
  unfold payme_handlePerform
  split
  · exact storeEvolves_refl _
  dsimp only
  rcases hres : mGetByProviderId b "payme" (p.extId.getD "") s with ⟨r, s1⟩
  have hs1 : s1.store = s.store := by
    have h := mGetByProviderId_store b "payme" (p.extId.getD "") s
    rw [hres] at h; exact h
  rcases r with e | o
  · rw [hs1]; exact storeEvolves_refl _
  rcases o with _ | tx
  · rw [hs1]; exact storeEvolves_refl _
  dsimp only
  split
  · rw [hs1]; exact storeEvolves_refl _
  split
  · rw [hs1]; exact storeEvolves_refl _
  split
  · rw [hs1]; exact storeEvolves_refl _
  rename_i hnc hnf hprep
  rcases hcb : mCbCompleted b
      { tx with
        status := Status.COMPLETED,
        providerTransactionId := some (p.extId.getD ""),
        providerPerformTime := some b.now } s1 with ⟨r2, s2⟩
  have hs2 : s2.store = s.store := by
    have h := mCbCompleted_store b
      { tx with
        status := Status.COMPLETED,
        providerTransactionId := some (p.extId.getD ""),
        providerPerformTime := some b.now } s1
    rw [hcb] at h; rw [h, hs1]
  rcases r2 with e2 | u2
  · rw [hs2]; exact storeEvolves_refl _
  · dsimp only
    rcases hupd : mUpdate b tx.id
        { status := some Status.COMPLETED,
          providerTransactionId := some (p.extId.getD ""),
          providerPerformTime := some b.now } s2 with ⟨r3, s3⟩
    have hev : StoreEvolves s2.store s3.store := by
      have h := storeEvolves_mUpdate b tx.id
        { status := some Status.COMPLETED,
          providerTransactionId := some (p.extId.getD ""),
          providerPerformTime := some b.now } s2 ?_
      · rw [hupd] at h; exact h
      · intro t ht hid
        rw [hs2] at ht
        have := mem_unique_of_find? (mGetByProviderId_ok hres) hu t ht hid
        subst this
        have hp2 : t.status = Status.PREPARED := not_ne_iff.mp hprep
        rw [hp2]
        simp [allowedStep, statusRank]
    rcases r3 with e3 | u3
    · rw [← hs2]; exact hev
    · rw [← hs2]; exact hev

theorem payme_handleCancel_evolves (b : Behavior) (reqId : Int)
    (p : PaymeParams) (s : St) (hu : UniqueIds s.store) :
    StoreEvolves s.store ((payme_handleCancel b reqId p s).2).store := by
  unfold payme_handleCancel
  split
  · exact storeEvolves_refl _
  dsimp only
  rcases hres : mGetByProviderId b "payme" (p.extId.getD "") s with ⟨r, s1⟩
  have hs1 : s1.store = s.store := by
    have h := mGetByProviderId_store b "payme" (p.extId.getD "") s
    rw [hres] at h; exact h
  rcases r with e | o
  · rw [hs1]; exact storeEvolves_refl _
  rcases o with _ | tx
  · rw [hs1]; exact storeEvolves_refl _
  dsimp only
  split
  · rw [hs1]; exact storeEvolves_refl _
  rename_i hnf
  rcases hcb : (if tx.status = Status.COMPLETED then
      mCbCancelled b
        { tx with
          status := Status.FAILED,
          providerCancelTime := some b.now,
          cancelReason := p.reason } s1
    else (Except.ok (), s1)) with ⟨r2, s2⟩
  have hs2 : s2.store = s.store := by
    revert hcb
    split
    · intro hcb
      have h := mCbCancelled_store b
        { tx with
          status := Status.FAILED,
          providerCancelTime := some b.now,
          cancelReason := p.reason } s1
      rw [hcb] at h; rw [h, hs1]
    · intro hcb
      have := congrArg Prod.snd hcb
      simp at this
      rw [← this, hs1]
  rcases r2 with e2 | u2
  · rw [hs2]; exact storeEvolves_refl _
  · dsimp only
    rcases hupd : mUpdate b tx.id
        { status := some Status.FAILED,
          providerTransactionId := some (p.extId.getD ""),
          providerCancelTime := some b.now,
          cancelReason := p.reason } s2 with ⟨r3, s3⟩
    have hev : StoreEvolves s2.store s3.store := by
      have h := storeEvolves_mUpdate b tx.id
        { status := some Status.FAILED,
          providerTransactionId := some (p.extId.getD ""),
          providerCancelTime := some b.now,
          cancelReason := p.reason } s2 ?_
      · rw [hupd] at h; exact h
      · intro t ht hid
        rw [hs2] at ht
        have := mem_unique_of_find? (mGetByProviderId_ok hres) hu t ht hid
        subst this
        rcases hst : t.status with _ | _ | _ | _ <;>
          simp [allowedStep, statusRank]
    rcases r3 with e3 | u3
    · rw [← hs2]; exact hev
    · rw [← hs2]; exact hev

/-- Every Payme webhook invocation only moves statuses forward. -/
theorem handlePaymeWebhook_evolves (b : Behavior) (cfg : PaymeConfig)
    (auth : AuthHeader) (body : PaymeBodyIn) (s : St)
    (hu : UniqueIds s.store) :
    StoreEvolves s.store ((handlePaymeWebhook b cfg auth body s).2).store := by
  unfold handlePaymeWebhook
  split
  · exact storeEvolves_refl _
  rcases body with idGuess | ⟨method, reqId, p⟩
  · exact storeEvolves_refl _
  dsimp only
  rcases hrun : payme_route b method reqId p s with ⟨r, s1⟩
  have hev : StoreEvolves s.store s1.store := by
    have hroute : StoreEvolves s.store ((payme_route b method reqId p s).2).store := by
      unfold payme_route
      split
      · rw [payme_handleCheckPerform_store]; exact storeEvolves_refl _
      · exact payme_handleCreate_evolves b reqId p s hu
      · exact payme_handlePerform_evolves b reqId p s hu
      · exact payme_handleCancel_evolves b reqId p s hu
      · rw [payme_handleCheck_store]; exact storeEvolves_refl _
      · rw [payme_handleGetStatement_store]; exact storeEvolves_refl _
      · exact storeEvolves_refl _
    rw [hrun] at hroute
    exact hroute
  unfold mTry
  rw [hrun]
  rcases r with e | out
  · exact hev
  · exact hev

/-- Membership in an updated store traces back to the original store. -/
theorem mem_updateTransaction {st : Store} {id : String} {f : UpdateFields}
    {t : Transaction} (h : t ∈ updateTransaction st id f) :
    ∃ t0 ∈ st, t = (if t0.id == id then applyUpdate t0 f else t0) := by
  unfold updateTransaction at h
  rcases List.mem_map.mp h with ⟨t0, ht0, heq⟩
  exact ⟨t0, ht0, heq.symm⟩

/-- A status-free update preserves every transaction's id and status. -/
theorem status_after_noStatus_update {st : Store} {id : String}
    {f : UpdateFields} (hf : f.status = none) :
    ∀ t ∈ updateTransaction st id f,
      ∃ t0 ∈ st, t.id = t0.id ∧ t.status = t0.status := by
  intro t ht
  rcases mem_updateTransaction ht with ⟨t0, ht0, heq⟩
  refine ⟨t0, ht0, ?_⟩
  by_cases hcase : t0.id == id
  · rw [hcase, if_pos rfl] at heq
    subst heq
    constructor
    · rfl
    · show (f.status).getD t0.status = t0.status
      rw [hf]
      rfl
  · rw [if_neg (by simp_all)] at heq
    subst heq
    exact ⟨rfl, rfl⟩

-- =============================================================================
-- Store effect of the Click handler
-- =============================================================================

theorem click_core_evolves (b : Behavior) (d : ClickRequest) (s : St)
    (hu : UniqueIds s.store) :
    StoreEvolves s.store ((click_core b d s).2).store := by
  unfold click_core
  rcases hres : mGetById b d.merchant_trans_id s with ⟨r, s1⟩
  have hs1 : s1.store = s.store := by
    have h := mGetById_store b d.merchant_trans_id s
    rw [hres] at h; exact h
  rcases r with e | first
  · rw [hs1]; exact storeEvolves_refl _
  dsimp only
  rcases hres2 : (match first with
    | some tx => (Except.ok (some tx), s1)
    | none => mGetByShortId b d.merchant_trans_id s1) with ⟨r2, s2⟩
  have hs2 : s2.store = s.store := by
    revert hres2
    rcases first with _ | tx
    · intro hres2
      have hres2a : mGetByShortId b d.merchant_trans_id s1 = (r2, s2) := hres2
      have h := mGetByShortId_store b d.merchant_trans_id s1
      rw [hres2a] at h; rw [h, hs1]
    · intro hres2
      have hres2a : ((Except.ok (some tx), s1) :
          Except Unit (Option Transaction) × St) = (r2, s2) := hres2
      have := congrArg Prod.snd hres2a
      simp at this
      rw [← this, hs1]
  have hfound : ∀ tx, r2 = Except.ok (some tx) →
      ∀ t ∈ s.store, t.id = tx.id → t = tx := by
    intro tx hr2 t ht hid
    revert hres2
    rcases first with _ | tx0
    · intro hres2
      have hres2a : mGetByShortId b d.merchant_trans_id s1 = (r2, s2) := hres2
      rw [hr2] at hres2a
      have := mGetByShortId_ok hres2a
      rw [hs1] at this
      exact mem_unique_of_find? this hu t ht hid
    · intro hres2
      have hres2a : ((Except.ok (some tx0), s1) :
          Except Unit (Option Transaction) × St) = (r2, s2) := hres2
      have h1 := congrArg Prod.fst hres2a
      simp [hr2] at h1
      subst h1
      have := mGetById_ok hres
      exact mem_unique_of_find? this hu t ht hid
  rw [hres2]
  rcases r2 with e2 | o2
  · rw [hs2]; exact storeEvolves_refl _
  rcases o2 with _ | tx
  · rw [hs2]; exact storeEvolves_refl _
  have huniq : ∀ t ∈ s.store, t.id = tx.id → t = tx := hfound tx rfl
  dsimp only
  split
  · -- external cancellation: force FAILED from any status
    rcases hupd : mUpdate b tx.id
        { status := some Status.FAILED,
          providerTransactionId := some (toString d.click_trans_id) } s2 with ⟨r3, s3⟩
    have hev : StoreEvolves s2.store s3.store := by
      have h := storeEvolves_mUpdate b tx.id
        { status := some Status.FAILED,
          providerTransactionId := some (toString d.click_trans_id) } s2 ?_
      · rw [hupd] at h; exact h
      · intro t ht hid
        rw [hs2] at ht
        have := huniq t ht hid
        subst this
        rcases hst : t.status with _ | _ | _ | _ <;>
          simp [allowedStep, statusRank]
    rcases r3 with e3 | u3
    · rw [← hs2]; exact hev
    · rw [← hs2]; exact hev
  split
  · rw [hs2]; exact storeEvolves_refl _
  split
  · -- prepare
    split
    · rw [hs2]; exact storeEvolves_refl _
    split
    · rw [hs2]; exact storeEvolves_refl _
    rename_i hnc hnf
    rcases hupd : mUpdate b tx.id
        { status := some Status.PREPARED,
          providerTransactionId := some (toString d.click_trans_id) } s2 with ⟨r3, s3⟩
    have hev : StoreEvolves s2.store s3.store := by
      have h := storeEvolves_mUpdate b tx.id
        { status := some Status.PREPARED,
          providerTransactionId := some (toString d.click_trans_id) } s2 ?_
      · rw [hupd] at h; exact h
      · intro t ht hid
        rw [hs2] at ht
        have := huniq t ht hid
        subst this
        rcases hst : t.status with _ | _ | _ | _
        · simp [allowedStep, statusRank]
        · simp [allowedStep, statusRank]
        · exact absurd ⟨by rw [hst]; decide, hst⟩ hnc
        · exact absurd ⟨by rw [hst]; decide, hst⟩ hnf
    rcases r3 with e3 | u3
    · rw [← hs2]; exact hev
    · rw [← hs2]; exact hev
  split
  · -- complete
    split
    · rw [hs2]; exact storeEvolves_refl _
    split
    · rw [hs2]; exact storeEvolves_refl _
    split
    · rw [hs2]; exact storeEvolves_refl _
    rename_i hmatch hnc hnf
    rcases hcb : mCbCompleted b
        { tx with
          status := Status.COMPLETED,
          providerTransactionId := some (toString d.click_trans_id) } s2 with ⟨r3, s3⟩
    have hs3 : s3.store = s.store := by
      have h := mCbCompleted_store b
        { tx with
          status := Status.COMPLETED,
          providerTransactionId := some (toString d.click_trans_id) } s2
      rw [hcb] at h; rw [h, hs2]
    rcases r3 with e3 | u3
    · rw [hs3]; exact storeEvolves_refl _
    · dsimp only
      rcases hupd : mUpdate b tx.id
          { status := some Status.COMPLETED,
            providerTransactionId := some (toString d.click_trans_id) } s3 with ⟨r4, s4⟩
      have hev : StoreEvolves s3.store s4.store := by
        have h := storeEvolves_mUpdate b tx.id
          { status := some Status.COMPLETED,
            providerTransactionId := some (toString d.click_trans_id) } s3 ?_
        · rw [hupd] at h; exact h
        · intro t ht hid
          rw [hs3] at ht
          have := huniq t ht hid
          subst this
          rcases hst : t.status with _ | _ | _ | _
          · simp [allowedStep, statusRank]
          · simp [allowedStep, statusRank]
          · exact absurd hst hnc
          · exact absurd hst hnf
      rcases r4 with e4 | u4
      · rw [← hs3]; exact hev
      · rw [← hs3]; exact hev
  · rw [hs2]; exact storeEvolves_refl _

/-- Every Click webhook invocation only moves statuses forward. -/
theorem handleClickWebhook_evolves (b : Behavior) (cfg : ClickConfig)
    (body : Option ClickRequest) (s : St) (hu : UniqueIds s.store) :
    StoreEvolves s.store ((handleClickWebhook b cfg body s).2).store := by
  unfold handleClickWebhook
  rcases body with _ | d
  · exact storeEvolves_refl _
  dsimp only
  split
  · exact storeEvolves_refl _
  unfold mTry
  rcases hrun : click_core b d s with ⟨r, s1⟩
  have h := click_core_evolves b d s hu
  rw [hrun] at h
  rcases r with e | out
  · exact h
  · exact h

-- =============================================================================
-- Store effect of each Paynet method
-- =============================================================================

theorem paynet_handleGetInformation_evolves (b : Behavior) (reqId : Int)
    (p : PaynetParams) (s : St) :
    StoreEvolves s.store ((paynet_handleGetInformation b reqId p s).2).store := by
  unfold paynet_handleGetInformation
  rcases paynetClientId p with _ | clientId
  · exact storeEvolves_refl _
  dsimp only
  rcases hres : mGetByShortId b clientId s with ⟨r, s1⟩
  have hs1 : s1.store = s.store := by
    have h := mGetByShortId_store b clientId s
    rw [hres] at h; exact h
  rcases r with e | o
  · rw [hs1]; exact storeEvolves_refl _
  rcases o with _ | tx
  · rw [hs1]; exact storeEvolves_refl _
  dsimp only
  split
  · rw [hs1]; exact storeEvolves_refl _
  rcases hfix : (if tx.provider ≠ "paynet" then
      mUpdate b tx.id { provider := some "paynet" } s1
    else (Except.ok (), s1)) with ⟨r2, s2⟩
  have hev2 : StoreEvolves s1.store s2.store := by
    revert hfix
    split
    · intro hfix
      have h := storeEvolves_mUpdate b tx.id { provider := some "paynet" } s1 ?_
      · rw [hfix] at h; exact h
      · intro t _ _; exact Nat.le_refl _
    · intro hfix
      have := congrArg Prod.snd hfix
      simp at this
      rw [← this]
      exact storeEvolves_refl _
  have hev : StoreEvolves s.store s2.store := by
    rw [← hs1]; exact hev2
  rcases r2 with e2 | u2
  · exact hev
  · dsimp only
    rcases huser : (if b.hasUserInfoCb = true then
        (if b.userInfoThrows = true then ((Except.error (), s2) : Except Unit (Option String) × St)
          else (Except.ok b.userInfoName, s2))
      else (Except.ok none, s2)) with ⟨r3, s3⟩
    have hs3 : s3 = s2 := by
      revert huser
      split
      · split
        · intro huser
          exact (congrArg Prod.snd huser).symm
        · intro huser
          exact (congrArg Prod.snd huser).symm
      · intro huser
        exact (congrArg Prod.snd huser).symm
    rcases r3 with e3 | nm
    · rw [hs3]; exact hev
    · rw [hs3]; exact hev

theorem paynet_handlePerformTransaction_evolves (b : Behavior) (reqId : Int)
    (p : PaynetParams) (s : St) (hu : UniqueIds s.store) :
    StoreEvolves s.store ((paynet_handlePerformTransaction b reqId p s).2).store := by
  unfold paynet_handlePerformTransaction
  split
  · exact storeEvolves_refl _
  dsimp only
  rcases hres : mGetByShortId b ((paynetClientId p).getD "") s with ⟨r, s1⟩
  have hs1 : s1.store = s.store := by
    have h := mGetByShortId_store b ((paynetClientId p).getD "") s
    rw [hres] at h; exact h
  rcases r with e | o
  · rw [hs1]; exact storeEvolves_refl _
  rcases o with _ | tx
  · rw [hs1]; exact storeEvolves_refl _
  have huniq : ∀ t ∈ s.store, t.id = tx.id → t = tx := by
    intro t ht hid
    exact mem_unique_of_find? (mGetByShortId_ok hres) hu t ht hid
  dsimp only
  rcases hfix : (if tx.provider ≠ "paynet" then
      mUpdate b tx.id { provider := some "paynet" } s1
    else (Except.ok (), s1)) with ⟨r2, s2⟩
  have hs2cases : s2.store = s1.store ∨
      s2.store = updateTransaction s1.store tx.id { provider := some "paynet" } := by
    revert hfix
    split
    · intro hfix
      rcases mUpdate_store b tx.id { provider := some "paynet" } s1 with h | h
      · rw [hfix] at h; exact Or.inl h
      · rw [hfix] at h; exact Or.inr h
    · intro hfix
      have := congrArg Prod.snd hfix
      simp at this
      rw [← this]
      exact Or.inl rfl
  have hstat2 : ∀ t ∈ s2.store, t.id = tx.id → t.status = tx.status := by
    intro t ht hid
    rcases hs2cases with h | h
    · rw [h, hs1] at ht
      rw [huniq t ht hid]
    · rw [h] at ht
      rcases status_after_noStatus_update rfl t ht with ⟨t0, ht0, hid0, hst0⟩
      rw [hs1] at ht0
      rw [hst0, huniq t0 ht0 (hid0 ▸ hid)]
  have hev12 : StoreEvolves s1.store s2.store := by
    rcases hs2cases with h | h
    · rw [h]; exact storeEvolves_refl _
    · rw [h]
      exact storeEvolves_update_noStatus tx.id { provider := some "paynet" } rfl
  have hev02 : StoreEvolves s.store s2.store := by
    rw [← hs1]; exact hev12
  rcases r2 with e2 | u2
  · exact hev02
  dsimp only
  split
  · exact hev02
  split
  · exact hev02
  split
  · exact hev02
  rename_i hamt hnc hnf
  unfold mTry
  dsimp only
  rcases hupd : mUpdate b tx.id
      { status := some Status.COMPLETED,
        providerTransactionId := some (toString (p.transactionId.getD 0)) } s2 with ⟨r3, s3⟩
  have hev23 : StoreEvolves s2.store s3.store := by
    have h := storeEvolves_mUpdate b tx.id
      { status := some Status.COMPLETED,
        providerTransactionId := some (toString (p.transactionId.getD 0)) } s2 ?_
    · rw [hupd] at h; exact h
    · intro t ht hid
      have hst := hstat2 t ht hid
      rcases hcase : tx.status with _ | _ | _ | _
      · rw [hst, hcase]; simp [allowedStep, statusRank]
      · rw [hst, hcase]; simp [allowedStep, statusRank]
      · exact absurd hcase hnc
      · exact absurd hcase hnf
  have hev03 : StoreEvolves s.store s3.store := storeEvolves_trans hev02 hev23
  rcases r3 with e3 | u3
  · exact hev03
  dsimp only
  rcases hcb : mCbCompleted b tx s3 with ⟨r4, s4⟩
  have hs4 : s4.store = s3.store := by
    have h := mCbCompleted_store b tx s3
    rw [hcb] at h; exact h
  rcases r4 with e4 | u4
  · rw [hs4]; exact hev03
  · rw [hs4]; exact hev03

theorem paynet_handleCheckTransaction_store (b : Behavior) (reqId : Int)
    (p : PaynetParams) (s : St) :
    ((paynet_handleCheckTransaction b reqId p s).2).store = s.store := by
  unfold paynet_handleCheckTransaction
  split
  · rfl
  rcases hres : mGetByProviderId b "paynet" (toString (p.transactionId.getD 0)) s
    with ⟨r, s1⟩
  have hs1 : s1.store = s.store := by
    have h := mGetByProviderId_store b "paynet" (toString (p.transactionId.getD 0)) s
    rw [hres] at h; exact h
  rcases r with e | o
  · exact hs1
  · rcases o with _ | tx
    · exact hs1
    · exact hs1

theorem paynet_handleCancelTransaction_evolves (b : Behavior) (reqId : Int)
    (p : PaynetParams) (s : St) (hu : UniqueIds s.store) :
    StoreEvolves s.store ((paynet_handleCancelTransaction b reqId p s).2).store := by
  unfold paynet_handleCancelTransaction
  split
  · exact storeEvolves_refl _
  dsimp only
  rcases hres : mGetByProviderId b "paynet" (toString (p.transactionId.getD 0)) s
    with ⟨r, s1⟩
  have hs1 : s1.store = s.store := by
    have h := mGetByProviderId_store b "paynet" (toString (p.transactionId.getD 0)) s
    rw [hres] at h; exact h
  rcases r with e | o
  · rw [hs1]; exact storeEvolves_refl _
  rcases o with _ | tx
  · rw [hs1]; exact storeEvolves_refl _
  dsimp only
  split
  · rw [hs1]; exact storeEvolves_refl _
  rcases hcb : (if tx.status = Status.COMPLETED then mCbCancelled b tx s1
    else (Except.ok (), s1)) with ⟨r2, s2⟩
  have hs2 : s2.store = s.store := by
    revert hcb
    split
    · intro hcb
      have h := mCbCancelled_store b tx s1
      rw [hcb] at h; rw [h, hs1]
    · intro hcb
      have := congrArg Prod.snd hcb
      simp at this
      rw [← this, hs1]
  rcases r2 with e2 | u2
  · rw [hs2]; exact storeEvolves_refl _
  · dsimp only
    rcases hupd : mUpdate b tx.id
        { status := some Status.FAILED,
          providerTransactionId := some (toString (p.transactionId.getD 0)) } s2
      with ⟨r3, s3⟩
    have hev : StoreEvolves s2.store s3.store := by
      have h := storeEvolves_mUpdate b tx.id
        { status := some Status.FAILED,
          providerTransactionId := some (toString (p.transactionId.getD 0)) } s2 ?_
      · rw [hupd] at h; exact h
      · intro t ht hid
        rw [hs2] at ht
        have := mem_unique_of_find? (mGetByProviderId_ok hres) hu t ht hid
        subst this
        rcases hst : t.status with _ | _ | _ | _ <;>
          simp [allowedStep, statusRank]
    rcases r3 with e3 | u3
    · rw [← hs2]; exact hev
    · rw [← hs2]; exact hev

theorem paynet_handleGetStatement_store (b : Behavior) (reqId : Int)
    (p : PaynetParams) (s : St) :
    ((paynet_handleGetStatement b reqId p s).2).store = s.store := by
  unfold paynet_handleGetStatement
  split
  · rfl
  rcases hres : mGetByDateRange b "paynet" s with ⟨r, s1⟩
  have hs1 : s1.store = s.store := by
    have h := mGetByDateRange_store b "paynet" s
    rw [hres] at h; exact h
  rcases r with e | txs
  · exact hs1
  · exact hs1

theorem paynet_handleChangePassword_store (b : Behavior) (reqId : Int)
    (p : PaynetParams) (s : St) :
    ((paynet_handleChangePassword b reqId p s).2).store = s.store := by
  unfold paynet_handleChangePassword
  split
  · rfl
  · repeat' split
    all_goals rfl

/-- Every Paynet webhook invocation only moves statuses forward (also when
an exception escapes the handler). -/
theorem handlePaynetWebhook_evolves (b : Behavior) (cfg : PaynetConfig)
    (auth : AuthHeader) (body : PaynetBodyIn) (s : St)
    (hu : UniqueIds s.store) :
    StoreEvolves s.store ((handlePaynetWebhook b cfg auth body s).2).store := by
  unfold handlePaynetWebhook
  split
  · exact storeEvolves_refl _
  rcases body with idGuess | ⟨method, reqId, p⟩
  · exact storeEvolves_refl _
  dsimp only
  split
  · exact storeEvolves_refl _
  rcases hrun : paynet_route b method reqId p s with ⟨r, s1⟩
  have hev : StoreEvolves s.store s1.store := by
    have hroute : StoreEvolves s.store ((paynet_route b method reqId p s).2).store := by
      unfold paynet_route
      split
      · exact paynet_handleGetInformation_evolves b reqId p s
      · exact paynet_handlePerformTransaction_evolves b reqId p s hu
      · rw [paynet_handleCheckTransaction_store]; exact storeEvolves_refl _
      · exact paynet_handleCancelTransaction_evolves b reqId p s hu
      · rw [paynet_handleGetStatement_store]; exact storeEvolves_refl _
      · rw [paynet_handleChangePassword_store]; exact storeEvolves_refl _
      · exact storeEvolves_refl _
    rw [hrun] at hroute
    exact hroute
  rcases r with e | out
  · exact hev
  · exact hev

-- =============================================================================
-- Per-transaction status traces across invocation sequences
-- =============================================================================

/-- Every element of an evolved store descends from an element of the
original store with the same id and a forward status move. -/
theorem evolves_mem_right {a c : Store} (h : StoreEvolves a c) :
    ∀ u ∈ c, ∃ t ∈ a, t.id = u.id ∧ allowedStep t.status u.status := by
  unfold StoreEvolves at h
  induction h with
  | nil => intro u hu; simp at hu
  | cons hrel _ ih =>
    intro u hu
    rcases List.mem_cons.mp hu with h1 | h1
    · subst h1
      exact ⟨_, List.mem_cons_self _ _, hrel⟩
    · rcases ih u h1 with ⟨t, ht, hp⟩
      exact ⟨t, List.mem_cons_of_mem _ ht, hp⟩

theorem uniqueIds_of_evolves {a c : Store} (h : StoreEvolves a c)
    (hu : UniqueIds a) : UniqueIds c := by
  unfold StoreEvolves at h
  unfold UniqueIds at *
  induction h with
  | nil => exact List.Pairwise.nil
  | cons hrel htail ih =>
    rcases List.pairwise_cons.mp hu with ⟨hhead, htl⟩
    refine List.pairwise_cons.mpr ⟨?_, ih htl⟩
    intro u hu2
    rcases evolves_mem_right htail u hu2 with ⟨t, ht, hid, _⟩
    rw [← hrel.1, ← hid]
    exact hhead t ht

theorem evolves_statusOfId {a c : Store} (h : StoreEvolves a c) (id : String) :
    statusStep (statusOfId a id) (statusOfId c id) := by
  unfold StoreEvolves at h
  unfold statusOfId getTransactionById
  induction h with
  | nil => exact ⟨fun _ => rfl, fun x hx => by simp at hx⟩
  | cons hrel htail ih =>
    rename_i t u a2 c2
    by_cases hid : t.id == id
    · have hid2 : u.id == id := by
        rw [← hrel.1]; exact hid
      rw [List.find?_cons, List.find?_cons, hid, hid2]
      exact ⟨fun hx => by simp at hx,
        fun x hx => by
          simp at hx
          exact ⟨u.status, by simp, hx ▸ hrel.2⟩⟩
    · have hid2 : (u.id == id) = false := by
        rw [← hrel.1]
        exact Bool.of_not_eq_true hid
      rw [List.find?_cons, List.find?_cons,
        Bool.of_not_eq_true hid, hid2]
      exact ih

theorem runRequest_evolves (b : Behavior) (r : AnyRequest) (st : Store)
    (hu : UniqueIds st) : StoreEvolves st (runRequest b r st) := by
  unfold runRequest
  rcases r with ⟨cfg, auth, body⟩ | ⟨cfg, body⟩ | ⟨cfg, auth, body⟩
  · exact handlePaymeWebhook_evolves b cfg auth body ⟨st, []⟩ hu
  · exact handleClickWebhook_evolves b cfg body ⟨st, []⟩ hu
  · exact handlePaynetWebhook_evolves b cfg auth body ⟨st, []⟩ hu

theorem statusList_chain (steps : List (Behavior × AnyRequest)) (st : Store)
    (id : String) (hu : UniqueIds st) :
    List.Chain' statusStep (statusList steps st id) := by
  induction steps generalizing st with
  | nil => simp [statusList, storesTrace]
  | cons step rest ih =>
    have hnext := runRequest_evolves step.1 step.2 st hu
    have hu2 := uniqueIds_of_evolves hnext hu
    have hchain := ih (runRequest step.1 step.2 st) hu2
    unfold statusList storesTrace
    rcases hrest : storesTrace rest (runRequest step.1 step.2 st) with _ | ⟨st2, more⟩
    · exact absurd hrest (by
        cases rest <;> simp [storesTrace])
    · have hhead : st2 = runRequest step.1 step.2 st := by
        cases rest <;> simp [storesTrace] at hrest <;> tauto
      refine List.chain'_cons.mpr ⟨?_, ?_⟩
      · rw [hhead]
        exact evolves_statusOfId hnext id
      · have := hchain
        unfold statusList at this
        rw [hrest] at this
        exact this

theorem statusRank_three {y : Status} (h : 3 ≤ statusRank y) :
    y = Status.FAILED := by
  cases y <;> simp [statusRank] at h ⊢

theorem cfCount_cons_cons (o1 o2 : Option Status) (more : List (Option Status)) :
    cfCount (o1 :: o2 :: more) = cfCount (o2 :: more) +
      (if (o1 == some Status.COMPLETED && o2 == some Status.FAILED) = true
        then 1 else 0) := by
  unfold cfCount
  rw [show (o1 :: o2 :: more).tail = o2 :: more from rfl,
    show (o2 :: more).tail = more from rfl,
    List.zip_cons_cons, List.countP_cons]

theorem cfCount_failed (rest : List (Option Status))
    (h : List.Chain' statusStep (some Status.FAILED :: rest)) :
    cfCount (some Status.FAILED :: rest) = 0 := by
  induction rest with
  | nil => rfl
  | cons o2 more ih =>
    rcases List.chain'_cons.mp h with ⟨hstep, htail⟩
    rcases hstep.2 Status.FAILED rfl with ⟨y, hy, hrank⟩
    have hyF : y = Status.FAILED := statusRank_three hrank
    subst hyF
    subst hy
    rw [cfCount_cons_cons, ih htail]
    simp

theorem cfCount_le_one (l : List (Option Status))
    (h : List.Chain' statusStep l) : cfCount l ≤ 1 := by
  induction l with
  | nil => simp [cfCount]
  | cons o1 rest ih =>
    rcases rest with _ | ⟨o2, more⟩
    · simp [cfCount]
    rcases List.chain'_cons.mp h with ⟨hstep, htail⟩
    rw [cfCount_cons_cons]
    by_cases hcf : o1 = some Status.COMPLETED ∧ o2 = some Status.FAILED
    · have h0 : cfCount (o2 :: more) = 0 := by
        rw [hcf.2] at htail ⊢
        exact cfCount_failed more htail
      rw [h0]
      split <;> omega
    · have hle := ih htail
      have hne : ¬(o1 == some Status.COMPLETED && o2 == some Status.FAILED) = true := by
        intro hb
        simp at hb
        exact hcf ⟨hb.1, hb.2⟩
      rw [if_neg hne]
      omega

-- =============================================================================
-- Concrete fixtures (mirroring `createTestTransaction` in src/test-utils.ts)
-- =============================================================================

/-- C3, counterexample: a single Paynet `PerformTransaction` invocation on a
PENDING transaction (the repository's own test case "completes transaction
and calls onPaymentCompleted") performs exactly one store write, and that
write moves the status PENDING→COMPLETED — an edge absent from the
claim's edge set {PENDING→PREPARED, PREPARED→COMPLETED, PENDING→FAILED,
PREPARED→FAILED, COMPLETED→FAILED}. -/
theorem C3_counterexample :
    statusOfId [paynetPendingTx] "tx-1" = some Status.PENDING ∧
    statusOfId
      (runRequest quietBehavior
        (AnyRequest.paynet paynetTestConfig paynetTestAuth paynetPerformBody)
        [paynetPendingTx]) "tx-1" = some Status.COMPLETED ∧
    (handlePaynetWebhook quietBehavior paynetTestConfig paynetTestAuth
        paynetPerformBody ⟨[paynetPendingTx], []⟩).2.events =
      [Event.readByShortId "12345", Event.write "tx-1",
        Event.cbCompleted paynetPendingTx] ∧
    ¬ specClaimedEdge Status.PENDING Status.COMPLETED := by
  exact ⟨by decide, by decide, by decide, by decide⟩

/-- C3, amended: across every sequence of webhook invocations (all three
providers, all methods, arbitrary requests, collaborator behaviors and
initial store with unique ids), each transaction's status moves only
forward along PENDING ≤ PREPARED ≤ COMPLETED ≤ FAILED — i.e. the claimed
edges plus PENDING→COMPLETED (Click Complete and Paynet PerformTransaction
complete a transaction straight from PENDING) — and the COMPLETED→FAILED
move happens at most once per transaction. -/
theorem C3_amended_statuses_monotone (steps : List (Behavior × AnyRequest))
    (st : Store) (id : String) (hu : UniqueIds st) :
    List.Chain' statusStep (statusList steps st id) ∧
    cfCount (statusList steps st id) ≤ 1 := by
  have h := statusList_chain steps st id hu
  exact ⟨h, cfCount_le_one _ h⟩

/-- Witness for `C3_amended_statuses_monotone` at a concrete run. -/
theorem C3_amended_witness :
    UniqueIds [paynetPendingTx] ∧
    (List.Chain' statusStep
        (statusList [(quietBehavior,
          AnyRequest.paynet paynetTestConfig paynetTestAuth paynetPerformBody)]
          [paynetPendingTx] "tx-1") ∧
      cfCount (statusList [(quietBehavior,
          AnyRequest.paynet paynetTestConfig paynetTestAuth paynetPerformBody)]
          [paynetPendingTx] "tx-1") ≤ 1) :=
  ⟨by simp [UniqueIds],
    C3_amended_statuses_monotone _ _ _ (by simp [UniqueIds])⟩

-- =============================================================================
-- C2
-- =============================================================================

/-- C2: if a (well-formed) Click webhook request's `sign_string` differs
from the MD5 of the concatenation
`click_trans_id + service_id + secretKey + merchant_trans_id +
(merchant_prepare_id only when action=1) + amount + action + sign_time`,
the handler answers `error = -1` ("SIGN CHECK FAILED") and performs no
store read or write: the returned state carries the untouched store and an
empty event trace. -/
theorem C2_sign_mismatch_rejected_without_store_access (b : Behavior)
    (cfg : ClickConfig) (d : ClickRequest) (st : Store)
    (h : d.sign_string ≠ b.md5 (clickSignSource cfg.secretKey d)) :
    handleClickWebhook b cfg (some d) ⟨st, []⟩ =
      (⟨200, ⟨-1, "SIGN CHECK FAILED", none, none, none, none⟩⟩, ⟨st, []⟩) := by
  unfold handleClickWebhook verifyClickSignature
  have hbeq : (b.md5 (clickSignSource cfg.secretKey d) == d.sign_string) = false :=
    beq_eq_false_iff_ne.mpr (Ne.symm h)
  dsimp only
  rw [hbeq]
  simp

/-- Witness for `C2_sign_mismatch_rejected_without_store_access`. -/
theorem C2_witness :
    clickBadSigRequest.sign_string ≠
      quietBehavior.md5 (clickSignSource clickTestConfig.secretKey clickBadSigRequest) ∧
    handleClickWebhook quietBehavior clickTestConfig (some clickBadSigRequest)
        ⟨[testTx], []⟩ =
      (⟨200, ⟨-1, "SIGN CHECK FAILED", none, none, none, none⟩⟩, ⟨[testTx], []⟩) :=
  ⟨by decide,
    C2_sign_mismatch_rejected_without_store_access quietBehavior clickTestConfig
      clickBadSigRequest [testTx] (by decide)⟩

-- =============================================================================
-- C9
-- =============================================================================

/-- C9: a Payme request whose Basic credential fails verification — for any
reason, wrong login or wrong secret — always yields the one fixed
insufficient-privileges response (code -32504, id 0, HTTP 200), and a
failing Paynet credential always yields the one fixed access-denied
response at HTTP 401; in particular any two authentication failures are
answered identically, revealing nothing about which component was wrong. -/
theorem C9_auth_failures_indistinguishable (b : Behavior) (cfg : PaymeConfig)
    (pcfg : PaynetConfig) (body : PaymeBodyIn) (pbody : PaynetBodyIn) (s : St)
    (a1 a2 : AuthHeader)
    (h1 : verifyPaymeAuth cfg.secretKey a1 = false)
    (h2 : verifyPaymeAuth cfg.secretKey a2 = false)
    (g1 : verifyPaynetAuth pcfg.username pcfg.password a1 = false)
    (g2 : verifyPaynetAuth pcfg.username pcfg.password a2 = false) :
    handlePaymeWebhook b cfg a1 body s = (⟨200, paymeInsufficientPrivileges 0⟩, s) ∧
    handlePaymeWebhook b cfg a2 body s = handlePaymeWebhook b cfg a1 body s ∧
    handlePaynetWebhook b pcfg a1 pbody s = (Except.ok ⟨401, paynetAccessDenied 0⟩, s) ∧
    handlePaynetWebhook b pcfg a2 pbody s = handlePaynetWebhook b pcfg a1 pbody s := by
  refine ⟨?_, ?_, ?_, ?_⟩
  · unfold handlePaymeWebhook
    rw [h1]
    simp
  · unfold handlePaymeWebhook
    rw [h1, h2]
  · unfold handlePaynetWebhook
    rw [g1]
    simp
  · unfold handlePaynetWebhook
    rw [g1, g2]

/-- Witness for `C9_auth_failures_indistinguishable`: one wrong-login header
and one wrong-secret header against both providers. -/
theorem C9_witness :
    verifyPaymeAuth paymeTestConfig.secretKey (AuthHeader.basic "Paycon" "test-secret") = false ∧
    verifyPaymeAuth paymeTestConfig.secretKey (AuthHeader.basic "Paycom" "wrong") = false ∧
    verifyPaynetAuth paynetTestConfig.username paynetTestConfig.password
      (AuthHeader.basic "Paycon" "test-secret") = false ∧
    verifyPaynetAuth paynetTestConfig.username paynetTestConfig.password
      (AuthHeader.basic "Paycom" "wrong") = false ∧
    (handlePaymeWebhook quietBehavior paymeTestConfig
        (AuthHeader.basic "Paycon" "test-secret") (PaymeBodyIn.invalid none) ⟨[], []⟩ =
      (⟨200, paymeInsufficientPrivileges 0⟩, ⟨[], []⟩) ∧
    handlePaymeWebhook quietBehavior paymeTestConfig
        (AuthHeader.basic "Paycom" "wrong") (PaymeBodyIn.invalid none) ⟨[], []⟩ =
      handlePaymeWebhook quietBehavior paymeTestConfig
        (AuthHeader.basic "Paycon" "test-secret") (PaymeBodyIn.invalid none) ⟨[], []⟩ ∧
    handlePaynetWebhook quietBehavior paynetTestConfig
        (AuthHeader.basic "Paycon" "test-secret") (PaynetBodyIn.invalid 0) ⟨[], []⟩ =
      (Except.ok ⟨401, paynetAccessDenied 0⟩, ⟨[], []⟩) ∧
    handlePaynetWebhook quietBehavior paynetTestConfig
        (AuthHeader.basic "Paycom" "wrong") (PaynetBodyIn.invalid 0) ⟨[], []⟩ =
      handlePaynetWebhook quietBehavior paynetTestConfig
        (AuthHeader.basic "Paycon" "test-secret") (PaynetBodyIn.invalid 0) ⟨[], []⟩) :=
  ⟨by decide, by decide, by decide, by decide,
    C9_auth_failures_indistinguishable quietBehavior paymeTestConfig
      paynetTestConfig (PaymeBodyIn.invalid none) (PaynetBodyIn.invalid 0)
      ⟨[], []⟩ (AuthHeader.basic "Paycon" "test-secret")
      (AuthHeader.basic "Paycom" "wrong")
      (by decide) (by decide) (by decide) (by decide)⟩

-- =============================================================================
-- C10
-- =============================================================================

/-- C10: a signature-valid Click webhook with a negative `error` field that
resolves to a stored transaction unconditionally persists status FAILED
with `providerTransactionId = click_trans_id.toString()` — whatever the
current status, COMPLETED included — answers `error = -9`, invokes no
callback, and leaves `cancelReason` and `providerCancelTime` untouched. -/
theorem C10_negative_error_forces_failed (b : Behavior) (cfg : ClickConfig)
    (d : ClickRequest) (st : Store) (tx : Transaction) (e : Int)
    (hsig : verifyClickSignature b.md5 cfg.secretKey d = true)
    (hget : b.getThrows = false) (hupd : b.updateThrows = false)
    (hres : getTransactionById st d.merchant_trans_id = some tx)
    (herr : d.errorField = some e) (hneg : e < 0) :
    handleClickWebhook b cfg (some d) ⟨st, []⟩ =
      (⟨200, ⟨-9, "Transaction cancelled", none, none, none, none⟩⟩,
        ⟨updateTransaction st tx.id
          { status := some Status.FAILED,
            providerTransactionId := some (toString d.click_trans_id) },
          [Event.readById d.merchant_trans_id, Event.write tx.id]⟩) ∧
    ((applyUpdate tx
        { status := some Status.FAILED,
          providerTransactionId := some (toString d.click_trans_id) }).status =
        Status.FAILED ∧
      (applyUpdate tx
        { status := some Status.FAILED,
          providerTransactionId := some (toString d.click_trans_id) }).providerTransactionId =
        some (toString d.click_trans_id) ∧
      (applyUpdate tx
        { status := some Status.FAILED,
          providerTransactionId := some (toString d.click_trans_id) }).cancelReason =
        tx.cancelReason ∧
      (applyUpdate tx
        { status := some Status.FAILED,
          providerTransactionId := some (toString d.click_trans_id) }).providerCancelTime =
        tx.providerCancelTime) ∧
    cbCount [Event.readById d.merchant_trans_id, Event.write tx.id] = 0 := by
  have h1 : mGetById b d.merchant_trans_id ⟨st, []⟩ =
      (Except.ok (some tx), ⟨st, [Event.readById d.merchant_trans_id]⟩) := by
    unfold mGetById emit
    rw [hget]
    simp [hres]
  have hcond : (match d.errorField with
      | some e => decide (e < 0) | none => false) = true := by
    rw [herr]
    simpa using hneg
  have h2 : mUpdate b tx.id
      { status := some Status.FAILED,
        providerTransactionId := some (toString d.click_trans_id) }
      ⟨st, [Event.readById d.merchant_trans_id]⟩ =
      (Except.ok (), ⟨updateTransaction st tx.id
        { status := some Status.FAILED,
          providerTransactionId := some (toString d.click_trans_id) },
        [Event.readById d.merchant_trans_id, Event.write tx.id]⟩) := by
    unfold mUpdate emit
    rw [hupd]
    simp
  refine ⟨?_, ⟨rfl, rfl, rfl, rfl⟩, by rfl⟩
  unfold handleClickWebhook
  dsimp only
  rw [hsig]
  simp only [not_true, if_false, ite_false, Bool.not_true, reduceIte]
  unfold mTry click_core
  rw [h1]
  dsimp only
  rw [hcond]
  simp only [if_true, reduceIte]
  rw [h2]

/-- Witness for `C10_negative_error_forces_failed`: a COMPLETED payment is
marked FAILED with no cancellation callback. -/
theorem C10_witness :
    clickCompletedTx.status = Status.COMPLETED ∧
    (handleClickWebhook quietBehavior clickTestConfig (some clickCancelRequest)
        ⟨[clickCompletedTx], []⟩ =
      (⟨200, ⟨-9, "Transaction cancelled", none, none, none, none⟩⟩,
        ⟨updateTransaction [clickCompletedTx] clickCompletedTx.id
          { status := some Status.FAILED,
            providerTransactionId := some (toString clickCancelRequest.click_trans_id) },
          [Event.readById clickCancelRequest.merchant_trans_id,
            Event.write clickCompletedTx.id]⟩) ∧
    ((applyUpdate clickCompletedTx
        { status := some Status.FAILED,
          providerTransactionId := some (toString clickCancelRequest.click_trans_id) }).status =
        Status.FAILED ∧
      (applyUpdate clickCompletedTx
        { status := some Status.FAILED,
          providerTransactionId := some (toString clickCancelRequest.click_trans_id) }).providerTransactionId =
        some (toString clickCancelRequest.click_trans_id) ∧
      (applyUpdate clickCompletedTx
        { status := some Status.FAILED,
          providerTransactionId := some (toString clickCancelRequest.click_trans_id) }).cancelReason =
        clickCompletedTx.cancelReason ∧
      (applyUpdate clickCompletedTx
        { status := some Status.FAILED,
          providerTransactionId := some (toString clickCancelRequest.click_trans_id) }).providerCancelTime =
        clickCompletedTx.providerCancelTime) ∧
    cbCount [Event.readById clickCancelRequest.merchant_trans_id,
      Event.write clickCompletedTx.id] = 0) :=
  ⟨by decide,
    C10_negative_error_forces_failed quietBehavior clickTestConfig
      clickCancelRequest [clickCompletedTx] clickCompletedTx (-1)
      (by decide) rfl rfl (by decide) rfl (by decide)⟩

-- =============================================================================
-- C1
-- =============================================================================

/-- C1, code evaluated at the failing input: Paynet `PerformTransaction` on
a PENDING transaction with a completion callback that throws. The event
trace shows the store write *precedes* the callback; the handler returns
the internal-error envelope, yet the persisted status has already advanced
PENDING→COMPLETED — contradicting "if the completion callback throws, the
stored status after the handler call equals the stored status before it". -/
theorem C1_paynet_perform_persists_before_callback :
    statusOfId [paynetPendingTx] "tx-1" = some Status.PENDING ∧
    (handlePaynetWebhook { quietBehavior with completedThrows := true }
        paynetTestConfig paynetTestAuth paynetPerformBody
        ⟨[paynetPendingTx], []⟩).1 =
      Except.ok ⟨200, paynetInternalError 1⟩ ∧
    statusOfId
      ((handlePaynetWebhook { quietBehavior with completedThrows := true }
        paynetTestConfig paynetTestAuth paynetPerformBody
        ⟨[paynetPendingTx], []⟩).2).store "tx-1" = some Status.COMPLETED ∧
    ((handlePaynetWebhook { quietBehavior with completedThrows := true }
        paynetTestConfig paynetTestAuth paynetPerformBody
        ⟨[paynetPendingTx], []⟩).2).events =
      [Event.readByShortId "12345", Event.write "tx-1",
        Event.cbCompleted paynetPendingTx] := by
  exact ⟨by decide, by decide, by decide, by decide⟩

-- =============================================================================
-- C5
-- =============================================================================

/-- C5, code evaluated at the failing input: Paynet `CancelTransaction` on a
COMPLETED transaction whose cancellation callback throws. The Paynet
dispatch has no surrounding try/catch, so the exception escapes the
handler boundary (`Except.error`) instead of becoming a JSON-RPC
internal-error response; the transaction is left unmutated. -/
theorem C5_paynet_exception_escapes_handler :
    (handlePaynetWebhook { quietBehavior with cancelledThrows := true }
        paynetTestConfig paynetTestAuth paynetCancelBody
        ⟨[paynetCompletedTx], []⟩).1 = Except.error () ∧
    ((handlePaynetWebhook { quietBehavior with cancelledThrows := true }
        paynetTestConfig paynetTestAuth paynetCancelBody
        ⟨[paynetCompletedTx], []⟩).2).store = [paynetCompletedTx] := by
  exact ⟨by decide, by decide⟩

-- =============================================================================
-- C8
-- =============================================================================

/-- C8: Paynet `CheckTransaction` always answers with an HTTP 200 *success*
envelope (a `res` body, never an `err` body): `transactionState` is
NOT_FOUND(3) when no (provider="paynet", transactionId) match exists, and
otherwise `mapToPaynetState` of the stored status — 1 for COMPLETED,
PENDING and PREPARED, 2 for FAILED. -/
theorem C8_check_transaction_envelope (b : Behavior) (cfg : PaynetConfig)
    (auth : AuthHeader) (reqId : Int) (p : PaynetParams) (st : Store)
    (hauth : verifyPaynetAuth cfg.username cfg.password auth = true)
    (hsvc : ¬(truthyInt p.serviceId = true ∧
      toString (p.serviceId.getD 0) ≠ cfg.serviceId))
    (htrn : truthyInt p.transactionId = true)
    (hget : b.getThrows = false) :
    (handlePaynetWebhook b cfg auth
        (PaynetBodyIn.valid "CheckTransaction" reqId p) ⟨st, []⟩).1 =
      Except.ok ⟨200, PaynetBodyOut.res reqId (PaynetResult.check
        (match getTransactionByProviderId st "paynet"
            (toString (p.transactionId.getD 0)) with
          | none => PAYNET_STATE_NOT_FOUND
          | some tx => mapToPaynetState tx.status)
        b.tsCheck
        (match getTransactionByProviderId st "paynet"
            (toString (p.transactionId.getD 0)) with
          | none => PaynetTrnRef.num 0
          | some tx => PaynetTrnRef.str tx.id))⟩ ∧
    (∀ s2 : Status, mapToPaynetState s2 =
      if s2 = Status.FAILED then 2 else 1) ∧
    PAYNET_STATE_NOT_FOUND = 3 := by
  refine ⟨?_, by intro s2; cases s2 <;> rfl, rfl⟩
  unfold handlePaynetWebhook
  rw [hauth]
  simp only [not_true, Bool.not_true, reduceIte, if_false]
  rw [if_neg hsvc]
  unfold paynet_route paynet_handleCheckTransaction
  rw [htrn]
  simp only [not_true, Bool.not_true, reduceIte, if_false]
  have h1 : mGetByProviderId b "paynet" (toString (p.transactionId.getD 0)) ⟨st, []⟩ =
      (Except.ok (getTransactionByProviderId st "paynet"
        (toString (p.transactionId.getD 0))),
        ⟨st, [Event.readByProviderId "paynet" (toString (p.transactionId.getD 0))]⟩) := by
    unfold mGetByProviderId emit
    rw [hget]
    simp
  rw [h1]
  rcases getTransactionByProviderId st "paynet" (toString (p.transactionId.getD 0))
    with _ | tx <;> rfl

/-- Witness for `C8_check_transaction_envelope` (unknown transaction id →
state 3 inside a success envelope). -/
theorem C8_witness :
    verifyPaynetAuth paynetTestConfig.username paynetTestConfig.password
      paynetTestAuth = true ∧
    ((handlePaynetWebhook quietBehavior paynetTestConfig paynetTestAuth
        (PaynetBodyIn.valid "CheckTransaction" 1 { transactionId := some 999 })
        ⟨[], []⟩).1 =
      Except.ok ⟨200, PaynetBodyOut.res 1 (PaynetResult.check
        (match getTransactionByProviderId [] "paynet" (toString ((some (999:Int)).getD 0)) with
          | none => PAYNET_STATE_NOT_FOUND
          | some tx => mapToPaynetState tx.status)
        quietBehavior.tsCheck
        (match getTransactionByProviderId [] "paynet" (toString ((some (999:Int)).getD 0)) with
          | none => PaynetTrnRef.num 0
          | some tx => PaynetTrnRef.str tx.id))⟩ ∧
      (∀ s2 : Status, mapToPaynetState s2 =
        if s2 = Status.FAILED then 2 else 1) ∧
      PAYNET_STATE_NOT_FOUND = 3) :=
  ⟨by decide,
    C8_check_transaction_envelope quietBehavior paynetTestConfig paynetTestAuth
      1 { transactionId := some 999 } [] (by decide) (by decide) (by decide) rfl⟩

-- =============================================================================
-- C7
-- =============================================================================

/-- C7, Click half: for a signature-valid request resolving (by id) to a
stored transaction and carrying no negative `error` field, the handler
answers INVALID_AMOUNT(-2) exactly when the webhook's major-unit amount,
converted with `Math.round(amount * 100)`, differs from the stored
minor-unit amount by more than 1. -/
theorem C7_click_tolerance (b : Behavior) (cfg : ClickConfig)
    (d : ClickRequest) (st : Store) (tx : Transaction)
    (hsig : verifyClickSignature b.md5 cfg.secretKey d = true)
    (hget : b.getThrows = false)
    (hres : getTransactionById st d.merchant_trans_id = some tx)
    (hpos : (match d.errorField with
      | some e => decide (e < 0) | none => false) = false) :
    ((handleClickWebhook b cfg (some d) ⟨st, []⟩).1.body.error = -2) ↔
      1 < (jsRound (d.amountNum * 100) - tx.amount).natAbs := by
  have h1 : mGetById b d.merchant_trans_id ⟨st, []⟩ =
      (Except.ok (some tx), ⟨st, [Event.readById d.merchant_trans_id]⟩) := by
    unfold mGetById emit
    rw [hget]
    simp [hres]
  rcases hcore : click_core b d ⟨st, []⟩ with ⟨rc, sc⟩
  have hc0 := hcore
  unfold click_core at hcore
  rw [h1] at hcore
  dsimp only at hcore
  rw [hpos] at hcore
  simp only [Bool.false_eq_true, reduceIte, if_false] at hcore
  unfold handleClickWebhook
  dsimp only
  rw [hsig]
  simp only [not_true, Bool.not_true, reduceIte, if_false]
  unfold mTry
  rw [hc0]
  split at hcore
  · rename_i hn
    cases hcore
    exact iff_of_true rfl hn
  · rename_i hn
    repeat' split at hcore
    all_goals cases hcore
    all_goals exact iff_of_false (by simp) hn

/-- C7, Paynet half: for an authenticated `PerformTransaction` resolving
(by short id) to a stored transaction, the handler answers the
invalid-amount error (413) exactly when the request amount differs from
the stored minor-unit amount at all — no tolerance. -/
theorem C7_paynet_exact_amount (b : Behavior) (cfg : PaynetConfig)
    (auth : AuthHeader) (reqId : Int) (p : PaynetParams) (st : Store)
    (tx : Transaction) (A T : Int)
    (hauth : verifyPaynetAuth cfg.username cfg.password auth = true)
    (hsvc : ¬(truthyInt p.serviceId = true ∧
      toString (p.serviceId.getD 0) ≠ cfg.serviceId))
    (ht : p.transactionId = some T) (hT0 : T ≠ 0)
    (ha : p.amount = some A) (hA0 : A ≠ 0)
    (hc : truthyStr (paynetClientId p) = true)
    (hres : getTransactionByShortId st ((paynetClientId p).getD "") = some tx)
    (hget : b.getThrows = false) (hupd : b.updateThrows = false) :
    ((handlePaynetWebhook b cfg auth
        (PaynetBodyIn.valid "PerformTransaction" reqId p) ⟨st, []⟩).1 =
      Except.ok ⟨200, paynetInvalidAmount reqId⟩) ↔ A ≠ tx.amount := by
  have hguard : (truthyInt (some T) = true ∧ truthyInt (some A) = true ∧
      truthyStr (paynetClientId p) = true) := by
    simp [truthyInt, hT0, hA0, hc]
  have h1 : mGetByShortId b ((paynetClientId p).getD "") ⟨st, []⟩ =
      (Except.ok (some tx),
        ⟨st, [Event.readByShortId ((paynetClientId p).getD "")]⟩) := by
    unfold mGetByShortId emit
    rw [hget]
    simp [hres]
  rcases hcore : paynet_handlePerformTransaction b reqId p ⟨st, []⟩ with ⟨rc, sc⟩
  have hc0 := hcore
  unfold paynet_handlePerformTransaction at hcore
  rw [ht, ha] at hcore
  rw [if_neg (by simpa using hguard)] at hcore
  dsimp only at hcore
  rw [h1] at hcore
  dsimp only at hcore
  unfold handlePaynetWebhook
  rw [hauth]
  simp only [not_true, Bool.not_true, reduceIte, if_false]
  rw [if_neg hsvc]
  rw [show paynet_route b "PerformTransaction" reqId p =
    paynet_handlePerformTransaction b reqId p from rfl, hc0]
  unfold mTry mUpdate mCbCompleted emit at hcore
  simp only [hupd, Bool.false_eq_true, ite_true, ite_false, reduceIte] at hcore
  try dsimp only at hcore
  by_cases hprov : tx.provider = "paynet"
  · rw [if_neg (by simp [hprov])] at hcore
    try dsimp only at hcore
    by_cases hn : (some A).getD 0 ≠ tx.amount
    · rw [if_pos hn] at hcore
      cases hcore
      exact iff_of_true rfl hn
    · rw [if_neg hn] at hcore
      by_cases hC : tx.status = Status.COMPLETED
      · rw [if_pos hC] at hcore
        cases hcore
        exact iff_of_false (by simp [paynetInvalidAmount, paynetTransactionExists]) hn
      · rw [if_neg hC] at hcore
        by_cases hF : tx.status = Status.FAILED
        · rw [if_pos hF] at hcore
          cases hcore
          exact iff_of_false (by simp [paynetInvalidAmount, paynetTransactionCancelled]) hn
        · rw [if_neg hF] at hcore
          rcases hcb : b.completedThrows with _ | _ <;>
            simp only [hcb, Bool.false_eq_true, ite_true, ite_false, reduceIte] at hcore <;>
            (try dsimp only at hcore) <;> cases hcore <;>
            refine iff_of_false ?_ hn <;>
            simp [paynetInvalidAmount, paynetInternalError]
  · rw [if_pos hprov] at hcore
    try dsimp only at hcore
    by_cases hn : (some A).getD 0 ≠ tx.amount
    · rw [if_pos hn] at hcore
      cases hcore
      exact iff_of_true rfl hn
    · rw [if_neg hn] at hcore
      by_cases hC : tx.status = Status.COMPLETED
      · rw [if_pos hC] at hcore
        cases hcore
        exact iff_of_false (by simp [paynetInvalidAmount, paynetTransactionExists]) hn
      · rw [if_neg hC] at hcore
        by_cases hF : tx.status = Status.FAILED
        · rw [if_pos hF] at hcore
          cases hcore
          exact iff_of_false (by simp [paynetInvalidAmount, paynetTransactionCancelled]) hn
        · rw [if_neg hF] at hcore
          rcases hcb : b.completedThrows with _ | _ <;>
            simp only [hcb, Bool.false_eq_true, ite_true, ite_false, reduceIte] at hcore <;>
            (try dsimp only at hcore) <;> cases hcore <;>
            refine iff_of_false ?_ hn <;>
            simp [paynetInvalidAmount, paynetInternalError]

/-- C7: the two providers' amount gates are genuinely different and never
unified. Click (major units): a resolved, signature-valid, non-cancelling
request is rejected with -2 exactly when |Math.round(amount×100) − stored|
> 1. Paynet (minor units, PerformTransaction): rejected with
invalid-amount (413) exactly when the request amount differs from the
stored amount at all. -/
theorem C7_amount_tolerance_divergence :
    (∀ (b : Behavior) (cfg : ClickConfig) (d : ClickRequest) (st : Store)
      (tx : Transaction),
      verifyClickSignature b.md5 cfg.secretKey d = true →
      b.getThrows = false →
      getTransactionById st d.merchant_trans_id = some tx →
      (match d.errorField with
        | some e => decide (e < 0) | none => false) = false →
      (((handleClickWebhook b cfg (some d) ⟨st, []⟩).1.body.error = -2) ↔
        1 < (jsRound (d.amountNum * 100) - tx.amount).natAbs)) ∧
    (∀ (b : Behavior) (cfg : PaynetConfig) (auth : AuthHeader) (reqId : Int)
      (p : PaynetParams) (st : Store) (tx : Transaction) (A T : Int),
      verifyPaynetAuth cfg.username cfg.password auth = true →
      ¬(truthyInt p.serviceId = true ∧
        toString (p.serviceId.getD 0) ≠ cfg.serviceId) →
      p.transactionId = some T → T ≠ 0 →
      p.amount = some A → A ≠ 0 →
      truthyStr (paynetClientId p) = true →
      getTransactionByShortId st ((paynetClientId p).getD "") = some tx →
      b.getThrows = false → b.updateThrows = false →
      (((handlePaynetWebhook b cfg auth
          (PaynetBodyIn.valid "PerformTransaction" reqId p) ⟨st, []⟩).1 =
        Except.ok ⟨200, paynetInvalidAmount reqId⟩) ↔ A ≠ tx.amount)) :=
  ⟨fun b cfg d st tx h1 h2 h3 h4 =>
    C7_click_tolerance b cfg d st tx h1 h2 h3 h4,
   fun b cfg auth reqId p st tx A T h1 h2 h3 h4 h5 h6 h7 h8 h9 h10 =>
    C7_paynet_exact_amount b cfg auth reqId p st tx A T h1 h2 h3 h4 h5 h6 h7 h8 h9 h10⟩

/-- Witness for `C7_amount_tolerance_divergence`: Click rejects 99999 UZS
against 5000000 tiyin with -2; Paynet rejects 999 tiyin against 5000000
tiyin with 413. -/
theorem C7_witness :
    (((handleClickWebhook quietBehavior clickTestConfig
        (some clickWrongAmountRequest) ⟨[clickTx], []⟩).1.body.error = -2) ↔
      1 < (jsRound (clickWrongAmountRequest.amountNum * 100) - clickTx.amount).natAbs) ∧
    (((handlePaynetWebhook quietBehavior paynetTestConfig paynetTestAuth
        (PaynetBodyIn.valid "PerformTransaction" 1
          { transactionId := some 777, amount := some 999,
            order_id := some "12345" }) ⟨[paynetPendingTx], []⟩).1 =
      Except.ok ⟨200, paynetInvalidAmount 1⟩) ↔ (999 : Int) ≠ paynetPendingTx.amount) :=
  ⟨C7_amount_tolerance_divergence.1 quietBehavior clickTestConfig
      clickWrongAmountRequest [clickTx] clickTx (by decide) rfl (by decide) (by decide),
   C7_amount_tolerance_divergence.2 quietBehavior paynetTestConfig paynetTestAuth
      1 { transactionId := some 777, amount := some 999, order_id := some "12345" }
      [paynetPendingTx] paynetPendingTx 999 777 (by decide) (by decide) rfl
      (by decide) rfl (by decide) (by decide) (by decide) rfl rfl⟩

-- =============================================================================
-- C6
-- =============================================================================

/-- C6: Payme `CreateTransaction` when a *different* external id is already
attached (stored `providerTransactionId` truthy and ≠ request id), with
matching amount: if the transaction is PREPARED and `now − providerCreateTime`
exceeds 12 hours (`providerCreateTime` set and nonzero), the handler
replaces `providerTransactionId`/`providerCreateTime` with the request's
values (status stays PREPARED) and reports state CREATED(1); in every other
case it answers order-already-paid (-31051) and writes nothing. -/
theorem C6_twelve_hour_expiry (b : Behavior) (cfg : PaymeConfig)
    (auth : AuthHeader) (reqId : Int) (p : PaymeParams) (st : Store)
    (tx : Transaction) (oid e e0 : String) (tm am : Int)
    (hauth : verifyPaymeAuth cfg.secretKey auth = true)
    (hoid : p.orderId = some oid) (hoid0 : oid ≠ "")
    (hext : p.extId = some e) (hext0 : e ≠ "")
    (htime : p.time = some tm) (htime0 : tm ≠ 0)
    (hamt : p.amount = some am) (hamt0 : am ≠ 0)
    (hres : getTransactionById st oid = some tx)
    (ham : am = tx.amount)
    (hp : tx.providerTransactionId = some e0) (he00 : e0 ≠ "") (hne : e0 ≠ e)
    (hget : b.getThrows = false) (hupd : b.updateThrows = false) :
    ((tx.status = Status.PREPARED ∧ ∃ ct, tx.providerCreateTime = some ct ∧
        ct ≠ 0 ∧ b.now - ct > TWELVE_HOURS_MS) →
      handlePaymeWebhook b cfg auth
          (PaymeBodyIn.valid "CreateTransaction" reqId p) ⟨st, []⟩ =
        (⟨200, PaymeBodyOut.res reqId
            (PaymeResult.create tm tx.id PAYME_STATE_CREATED)⟩,
          ⟨updateTransaction st tx.id
            { providerTransactionId := some e, providerCreateTime := some tm,
              status := some Status.PREPARED },
            [Event.readById oid, Event.write tx.id]⟩)) ∧
    (¬(tx.status = Status.PREPARED ∧ ∃ ct, tx.providerCreateTime = some ct ∧
        ct ≠ 0 ∧ b.now - ct > TWELVE_HOURS_MS) →
      handlePaymeWebhook b cfg auth
          (PaymeBodyIn.valid "CreateTransaction" reqId p) ⟨st, []⟩ =
        (⟨200, paymeOrderAlreadyPaid reqId⟩, ⟨st, [Event.readById oid]⟩)) := by
  have h1 : mGetById b oid ⟨st, []⟩ =
      (Except.ok (some tx), ⟨st, [Event.readById oid]⟩) := by
    unfold mGetById emit
    rw [hget]
    simp [hres]
  have hiff : (tx.status = Status.PREPARED ∧
      truthyInt tx.providerCreateTime = true ∧
      b.now - tx.providerCreateTime.getD 0 > TWELVE_HOURS_MS) ↔
      (tx.status = Status.PREPARED ∧ ∃ ct, tx.providerCreateTime = some ct ∧
        ct ≠ 0 ∧ b.now - ct > TWELVE_HOURS_MS) := by
    rcases hct : tx.providerCreateTime with _ | ct
    · simp [truthyInt]
    · simp [truthyInt]
  rcases hcore : payme_handleCreate b reqId p ⟨st, []⟩ with ⟨rc, sc⟩
  have hc0 := hcore
  unfold payme_handleCreate at hcore
  rw [hoid, hext, htime, hamt] at hcore
  dsimp only at hcore
  rw [if_neg (by simp [hoid0, hext0, htime0, hamt0])] at hcore
  rw [h1] at hcore
  dsimp only at hcore
  rw [if_neg (by simp [ham])] at hcore
  rw [if_neg (by rw [hp]; simp [hne])] at hcore
  rw [if_pos (by rw [hp]; exact ⟨by simp [truthyStr, he00], by simp [hne]⟩)] at hcore
  constructor
  · intro hcond
    have hcond2 : tx.status = Status.PREPARED ∧
        truthyInt tx.providerCreateTime = true ∧
        b.now - tx.providerCreateTime.getD 0 > TWELVE_HOURS_MS := hiff.mpr hcond
    rw [if_pos hcond2] at hcore
    unfold mUpdate emit at hcore
    rw [hupd] at hcore
    dsimp only at hcore
    cases hcore
    unfold handlePaymeWebhook
    rw [hauth]
    simp only [not_true, Bool.not_true, reduceIte, if_false]
    rw [show payme_route b "CreateTransaction" reqId p =
      payme_handleCreate b reqId p from rfl]
    unfold mTry
    rw [hc0]
    rfl
  · intro hcond
    have hcond2 : ¬(tx.status = Status.PREPARED ∧
        truthyInt tx.providerCreateTime = true ∧
        b.now - tx.providerCreateTime.getD 0 > TWELVE_HOURS_MS) := by
      intro hx
      exact hcond (hiff.mp hx)
    rw [if_neg hcond2] at hcore
    cases hcore
    unfold handlePaymeWebhook
    rw [hauth]
    simp only [not_true, Bool.not_true, reduceIte, if_false]
    rw [show payme_route b "CreateTransaction" reqId p =
      payme_handleCreate b reqId p from rfl]
    unfold mTry
    rw [hc0]

/-- Witness for `C6_twelve_hour_expiry`, expired branch: the external id and
create time are replaced and state CREATED(1) reported. -/
theorem C6_witness :
    (paymeExpiredTx.status = Status.PREPARED ∧
      ∃ ct, paymeExpiredTx.providerCreateTime = some ct ∧ ct ≠ 0 ∧
        lateBehavior.now - ct > TWELVE_HOURS_MS) ∧
    handlePaymeWebhook lateBehavior paymeTestConfig paymeTestAuth
        (PaymeBodyIn.valid "CreateTransaction" 1 paymeReplaceParams)
        ⟨[paymeExpiredTx], []⟩ =
      (⟨200, PaymeBodyOut.res 1
          (PaymeResult.create 1700050000001 paymeExpiredTx.id PAYME_STATE_CREATED)⟩,
        ⟨updateTransaction [paymeExpiredTx] paymeExpiredTx.id
          { providerTransactionId := some "ext-new",
            providerCreateTime := some 1700050000001,
            status := some Status.PREPARED },
          [Event.readById "tx-1", Event.write paymeExpiredTx.id]⟩) :=
  ⟨⟨by decide, 1700000000000, by decide, by decide, by decide⟩,
    (C6_twelve_hour_expiry lateBehavior paymeTestConfig paymeTestAuth 1
      paymeReplaceParams [paymeExpiredTx] paymeExpiredTx "tx-1" "ext-new"
      "ext-old" 1700050000001 5000000 (by decide) rfl (by decide) rfl
      (by decide) rfl (by decide) rfl (by decide) (by decide) rfl (by decide)
      (by decide) (by decide) rfl rfl).1
      ⟨by decide, 1700000000000, by decide, by decide, by decide⟩⟩

-- =============================================================================
-- C4: replay machinery
-- =============================================================================

/-- Updating the found transaction preserves `find?` when the update keeps
the predicate true (unique ids). -/
theorem find?_updateTransaction {st : Store} {p : Transaction → Bool}
    {tx : Transaction} (f : UpdateFields)
    (hf : st.find? p = some tx) (hu : UniqueIds st)
    (hp : p (applyUpdate tx f) = true) :
    (updateTransaction st tx.id f).find? p = some (applyUpdate tx f) := by
  induction st with
  | nil => simp at hf
  | cons a rest ih =>
    rw [List.find?_cons] at hf
    by_cases hpa : p a
    · rw [hpa] at hf
      injection hf with hf
      subst hf
      unfold updateTransaction
      rw [List.map_cons, List.find?_cons]
      have hself : (a.id == a.id) = true := by simp
      simp only [hself, if_true, reduceIte]
      rw [hp]
    · rw [Bool.of_not_eq_true hpa] at hf
      have hmem : tx ∈ rest := List.mem_of_find?_eq_some hf
      have hne : a.id ≠ tx.id := (List.pairwise_cons.mp hu).1 tx hmem
      unfold updateTransaction
      rw [List.map_cons, List.find?_cons]
      have hba : (a.id == tx.id) = false := beq_eq_false_iff_ne.mpr hne
      simp only [hba, Bool.false_eq_true, if_false, reduceIte]
      rw [Bool.of_not_eq_true hpa]
      exact ih hf (List.pairwise_cons.mp hu).2

/-- Replaying a successful Payme `PerformTransaction` returns the same
response, leaves the store fixed, and invokes no further callbacks. -/
theorem payme_perform_replay (b1 b2 : Behavior) (reqId : Int) (p : PaymeParams)
    (st : Store) (r0 : PaymeResult)
    (hg1 : b1.getThrows = false) (hg2 : b2.getThrows = false)
    (hnow : 0 < b1.now) (hu : UniqueIds st)
    (hsucc : (payme_handlePerform b1 reqId p ⟨st, []⟩).1 =
      Except.ok (PaymeBodyOut.res reqId r0)) :
    (payme_handlePerform b2 reqId p
        ⟨((payme_handlePerform b1 reqId p ⟨st, []⟩).2).store, []⟩).1 =
      (payme_handlePerform b1 reqId p ⟨st, []⟩).1 ∧
    ((payme_handlePerform b2 reqId p
        ⟨((payme_handlePerform b1 reqId p ⟨st, []⟩).2).store, []⟩).2).store =
      ((payme_handlePerform b1 reqId p ⟨st, []⟩).2).store ∧
    cbCount ((payme_handlePerform b2 reqId p
        ⟨((payme_handlePerform b1 reqId p ⟨st, []⟩).2).store, []⟩).2).events = 0 ∧
    cbCount ((payme_handlePerform b1 reqId p ⟨st, []⟩).2).events ≤ 1 := by
  by_cases hpx : truthyStr p.extId = true
  case neg =>
    have hrun1 : payme_handlePerform b1 reqId p ⟨st, []⟩ =
        (Except.ok (paymeTransactionNotFound reqId), ⟨st, []⟩) := by
      unfold payme_handlePerform
      rw [if_pos hpx]
    rw [hrun1] at hsucc
    simp [paymeTransactionNotFound] at hsucc
  case pos =>
  rcases fnd : getTransactionByProviderId st "payme" (p.extId.getD "") with _ | tx
  case none =>
    have hrun1 : payme_handlePerform b1 reqId p ⟨st, []⟩ =
        (Except.ok (paymeTransactionNotFound reqId),
          ⟨st, [Event.readByProviderId "payme" (p.extId.getD "")]⟩) := by
      unfold payme_handlePerform mGetByProviderId emit
      rw [if_neg (by simp [hpx]), hg1]
      simp [fnd]
    rw [hrun1] at hsucc
    simp [paymeTransactionNotFound] at hsucc
  case some =>
  have h1 : ∀ b : Behavior, b.getThrows = false → ∀ s0 : Store,
      mGetByProviderId b "payme" (p.extId.getD "") ⟨s0, []⟩ =
      (Except.ok (getTransactionByProviderId s0 "payme" (p.extId.getD "")),
        ⟨s0, [Event.readByProviderId "payme" (p.extId.getD "")]⟩) := by
    intro b hb s0
    unfold mGetByProviderId emit
    rw [hb]
    simp
  rcases hstat : tx.status with _ | _ | _ | _
  case PENDING =>
    have hrun1 : (payme_handlePerform b1 reqId p ⟨st, []⟩).1 =
        Except.ok (paymeCannotPerform reqId) := by
      unfold payme_handlePerform
      rw [if_neg (by simp [hpx])]
      dsimp only
      rw [h1 b1 hg1 st, fnd]
      dsimp only
      rw [if_neg (by simp [hstat]), if_neg (by simp [hstat]),
        if_pos (by simp [hstat])]
    rw [hrun1] at hsucc
    simp [paymeCannotPerform] at hsucc
  case FAILED =>
    have hrun1 : (payme_handlePerform b1 reqId p ⟨st, []⟩).1 =
        Except.ok (paymeCannotPerform reqId) := by
      unfold payme_handlePerform
      rw [if_neg (by simp [hpx])]
      dsimp only
      rw [h1 b1 hg1 st, fnd]
      dsimp only
      rw [if_neg (by simp [hstat]), if_pos (by simp [hstat])]
    rw [hrun1] at hsucc
    simp [paymeCannotPerform] at hsucc
  case COMPLETED =>
    have hrun : ∀ b : Behavior, b.getThrows = false →
        payme_handlePerform b reqId p ⟨st, []⟩ =
        (Except.ok (PaymeBodyOut.res reqId (PaymeResult.perform tx.id
          (orElseNum tx.providerPerformTime (jsOrInt tx.updatedAt tx.createdAt))
          PAYME_STATE_COMPLETED)),
          ⟨st, [Event.readByProviderId "payme" (p.extId.getD "")]⟩) := by
      intro b hb
      unfold payme_handlePerform
      rw [if_neg (by simp [hpx])]
      dsimp only
      rw [h1 b hb st, fnd]
      dsimp only
      rw [if_pos (by simp [hstat])]
    rw [hrun b1 hg1, hrun b2 hg2]
    refine ⟨rfl, rfl, by rfl, by simp [cbCount]⟩
  case PREPARED =>
    rcases hcb : b1.completedThrows with _ | _
    case true =>
      have hrun1 : (payme_handlePerform b1 reqId p ⟨st, []⟩).1 =
          Except.error () := by
        unfold payme_handlePerform mCbCompleted emit
        rw [if_neg (by simp [hpx])]
        dsimp only
        rw [h1 b1 hg1 st, fnd]
        dsimp only
        rw [if_neg (by simp [hstat]), if_neg (by simp [hstat]),
          if_neg (by simp [hstat]), hcb]
        rfl
      rw [hrun1] at hsucc
      simp at hsucc
    case false =>
    rcases hupd : b1.updateThrows with _ | _
    case true =>
      have hrun1 : (payme_handlePerform b1 reqId p ⟨st, []⟩).1 =
          Except.error () := by
        unfold payme_handlePerform mCbCompleted mUpdate emit
        rw [if_neg (by simp [hpx])]
        dsimp only
        rw [h1 b1 hg1 st, fnd]
        dsimp only
        rw [if_neg (by simp [hstat]), if_neg (by simp [hstat]),
          if_neg (by simp [hstat]), hcb]
        simp only [Bool.false_eq_true, if_false, reduceIte]
        rw [hupd]
        rfl
      rw [hrun1] at hsucc
      simp at hsucc
    case false =>
    have fnd2 : st.find? (fun t => t.provider == "payme" &&
        t.providerTransactionId == some (p.extId.getD "")) = some tx := fnd
    have hpred := List.find?_some fnd2
    have hprov : (tx.provider == "payme") = true := by
      simp only [Bool.and_eq_true] at hpred
      exact hpred.1
    have hrun1 : payme_handlePerform b1 reqId p ⟨st, []⟩ =
        (Except.ok (PaymeBodyOut.res reqId
          (PaymeResult.perform tx.id b1.now PAYME_STATE_COMPLETED)),
          ⟨updateTransaction st tx.id
            { status := some Status.COMPLETED,
              providerTransactionId := some (p.extId.getD ""),
              providerPerformTime := some b1.now },
            [Event.readByProviderId "payme" (p.extId.getD ""),
              Event.cbCompleted { tx with
                status := Status.COMPLETED,
                providerTransactionId := some (p.extId.getD ""),
                providerPerformTime := some b1.now },
              Event.write tx.id]⟩) := by
      unfold payme_handlePerform mCbCompleted mUpdate emit
      rw [if_neg (by simp [hpx])]
      dsimp only
      rw [h1 b1 hg1 st, fnd]
      dsimp only
      rw [if_neg (by simp [hstat]), if_neg (by simp [hstat]),
        if_neg (by simp [hstat]), hcb]
      simp only [Bool.false_eq_true, if_false, reduceIte]
      rw [hupd]
      rfl
    have hfind2 : getTransactionByProviderId
        (updateTransaction st tx.id
          { status := some Status.COMPLETED,
            providerTransactionId := some (p.extId.getD ""),
            providerPerformTime := some b1.now })
        "payme" (p.extId.getD "") =
        some (applyUpdate tx
          { status := some Status.COMPLETED,
            providerTransactionId := some (p.extId.getD ""),
            providerPerformTime := some b1.now }) := by
      unfold getTransactionByProviderId
      exact find?_updateTransaction _ fnd hu (by
        show (tx.provider == "payme" && (some (p.extId.getD "") ==
          some (p.extId.getD "")) : Bool) = true
        simp [hprov])
    have hrun2 : payme_handlePerform b2 reqId p
        ⟨updateTransaction st tx.id
          { status := some Status.COMPLETED,
            providerTransactionId := some (p.extId.getD ""),
            providerPerformTime := some b1.now }, []⟩ =
        (Except.ok (PaymeBodyOut.res reqId
          (PaymeResult.perform tx.id b1.now PAYME_STATE_COMPLETED)),
          ⟨updateTransaction st tx.id
            { status := some Status.COMPLETED,
              providerTransactionId := some (p.extId.getD ""),
              providerPerformTime := some b1.now },
            [Event.readByProviderId "payme" (p.extId.getD "")]⟩) := by
      unfold payme_handlePerform
      rw [if_neg (by simp [hpx])]
      dsimp only
      rw [h1 b2 hg2 _, hfind2]
      dsimp only
      have horl : orElseNum (some b1.now) (jsOrInt tx.updatedAt tx.createdAt) =
          b1.now := by
        unfold orElseNum
        dsimp only
        rw [if_neg (by omega)]
      simp only [applyUpdate, Option.map_some', Option.getD_some, if_true]
      rw [horl]
    rw [hrun1, hrun2]
    refine ⟨rfl, rfl, by rfl, by simp [cbCount]⟩

/-- Replaying a successful Payme `CancelTransaction` returns the same
response, leaves the store fixed, and invokes no further callbacks; the
flow invariant `PaymeConsistent` ties the stored perform time to the
COMPLETED status so that the replayed cancel state agrees. -/
theorem payme_cancel_replay (b1 b2 : Behavior) (reqId : Int) (p : PaymeParams)
    (st : Store) (r0 : PaymeResult)
    (hg1 : b1.getThrows = false) (hg2 : b2.getThrows = false)
    (hnow : 0 < b1.now) (hu : UniqueIds st) (hcons : PaymeConsistent st)
    (hsucc : (payme_handleCancel b1 reqId p ⟨st, []⟩).1 =
      Except.ok (PaymeBodyOut.res reqId r0)) :
    (payme_handleCancel b2 reqId p
        ⟨((payme_handleCancel b1 reqId p ⟨st, []⟩).2).store, []⟩).1 =
      (payme_handleCancel b1 reqId p ⟨st, []⟩).1 ∧
    ((payme_handleCancel b2 reqId p
        ⟨((payme_handleCancel b1 reqId p ⟨st, []⟩).2).store, []⟩).2).store =
      ((payme_handleCancel b1 reqId p ⟨st, []⟩).2).store ∧
    cbCount ((payme_handleCancel b2 reqId p
        ⟨((payme_handleCancel b1 reqId p ⟨st, []⟩).2).store, []⟩).2).events = 0 ∧
    cbCount ((payme_handleCancel b1 reqId p ⟨st, []⟩).2).events ≤ 1 := by
  by_cases hpx : truthyStr p.extId = true
  case neg =>
    have hrun1 : payme_handleCancel b1 reqId p ⟨st, []⟩ =
        (Except.ok (paymeTransactionNotFound reqId), ⟨st, []⟩) := by
      unfold payme_handleCancel
      rw [if_pos hpx]
    rw [hrun1] at hsucc
    simp [paymeTransactionNotFound] at hsucc
  case pos =>
  rcases fnd : getTransactionByProviderId st "payme" (p.extId.getD "") with _ | tx
  case none =>
    have hrun1 : payme_handleCancel b1 reqId p ⟨st, []⟩ =
        (Except.ok (paymeTransactionNotFound reqId),
          ⟨st, [Event.readByProviderId "payme" (p.extId.getD "")]⟩) := by
      unfold payme_handleCancel mGetByProviderId emit
      rw [if_neg (by simp [hpx]), hg1]
      simp [fnd]
    rw [hrun1] at hsucc
    simp [paymeTransactionNotFound] at hsucc
  case some =>
  have h1 : ∀ b : Behavior, b.getThrows = false → ∀ s0 : Store,
      mGetByProviderId b "payme" (p.extId.getD "") ⟨s0, []⟩ =
      (Except.ok (getTransactionByProviderId s0 "payme" (p.extId.getD "")),
        ⟨s0, [Event.readByProviderId "payme" (p.extId.getD "")]⟩) := by
    intro b hb s0
    unfold mGetByProviderId emit
    rw [hb]
    simp
  have fnd2 : st.find? (fun t => t.provider == "payme" &&
      t.providerTransactionId == some (p.extId.getD "")) = some tx := fnd
  have hpred := List.find?_some fnd2
  have hprov : (tx.provider == "payme") = true := by
    simp only [Bool.and_eq_true] at hpred
    exact hpred.1
  have hmem : tx ∈ st := List.mem_of_find?_eq_some fnd2
  by_cases hfail : tx.status = Status.FAILED
  case pos =>
    have hrun : ∀ b : Behavior, b.getThrows = false →
        payme_handleCancel b reqId p ⟨st, []⟩ =
        (Except.ok (PaymeBodyOut.res reqId (PaymeResult.cancel tx.id
          (orElseNum tx.providerCancelTime (jsOrInt tx.updatedAt tx.createdAt))
          (if truthyInt tx.providerPerformTime then PAYME_STATE_CANCELLED_AFTER
            else PAYME_STATE_CANCELLED_BEFORE))),
          ⟨st, [Event.readByProviderId "payme" (p.extId.getD "")]⟩) := by
      intro b hb
      unfold payme_handleCancel
      rw [if_neg (by simp [hpx])]
      dsimp only
      rw [h1 b hb st, fnd]
      dsimp only
      rw [if_pos hfail]
    rw [hrun b1 hg1, hrun b2 hg2]
    refine ⟨rfl, rfl, by rfl, by simp [cbCount]⟩
  case neg =>
  have hpt : truthyInt tx.providerPerformTime =
      decide (tx.status = Status.COMPLETED) := by
    by_cases hcomp : tx.status = Status.COMPLETED
    · rw [(hcons tx hmem).1 hcomp]
      simp [hcomp]
    · rcases hbool : truthyInt tx.providerPerformTime with _ | _
      · simp [hcomp]
      · rcases (hcons tx hmem).2 hbool with h | h
        · exact absurd h hcomp
        · exact absurd h hfail
  by_cases hcomp : tx.status = Status.COMPLETED
  case pos =>
    rcases hcb : b1.cancelledThrows with _ | _
    case true =>
      have hrun1 : (payme_handleCancel b1 reqId p ⟨st, []⟩).1 =
          Except.error () := by
        unfold payme_handleCancel mCbCancelled emit
        rw [if_neg (by simp [hpx])]
        dsimp only
        rw [h1 b1 hg1 st, fnd]
        dsimp only
        rw [if_neg hfail, if_pos hcomp, hcb]
        rfl
      rw [hrun1] at hsucc
      simp at hsucc
    case false =>
    rcases hupd : b1.updateThrows with _ | _
    case true =>
      have hrun1 : (payme_handleCancel b1 reqId p ⟨st, []⟩).1 =
          Except.error () := by
        unfold payme_handleCancel mCbCancelled mUpdate emit
        rw [if_neg (by simp [hpx])]
        dsimp only
        rw [h1 b1 hg1 st, fnd]
        dsimp only
        rw [if_neg hfail, if_pos hcomp, hcb]
        simp only [Bool.false_eq_true, if_false, reduceIte]
        rw [hupd]
        rfl
      rw [hrun1] at hsucc
      simp at hsucc
    case false =>
    have hrun1 : payme_handleCancel b1 reqId p ⟨st, []⟩ =
        (Except.ok (PaymeBodyOut.res reqId
          (PaymeResult.cancel tx.id b1.now PAYME_STATE_CANCELLED_AFTER)),
          ⟨updateTransaction st tx.id
            { status := some Status.FAILED,
              providerTransactionId := some (p.extId.getD ""),
              providerCancelTime := some b1.now,
              cancelReason := p.reason },
            [Event.readByProviderId "payme" (p.extId.getD ""),
              Event.cbCancelled { tx with
                status := Status.FAILED,
                providerCancelTime := some b1.now,
                cancelReason := p.reason },
              Event.write tx.id]⟩) := by
      unfold payme_handleCancel mCbCancelled mUpdate emit
      rw [if_neg (by simp [hpx])]
      dsimp only
      rw [h1 b1 hg1 st, fnd]
      dsimp only
      rw [if_neg hfail, if_pos hcomp, hcb]
      simp only [Bool.false_eq_true, if_false, reduceIte]
      rw [hupd]
      simp only [Bool.false_eq_true, if_false, reduceIte]
      rw [if_pos hcomp]
      rfl
    have hfind2 : getTransactionByProviderId
        (updateTransaction st tx.id
          { status := some Status.FAILED,
            providerTransactionId := some (p.extId.getD ""),
            providerCancelTime := some b1.now,
            cancelReason := p.reason })
        "payme" (p.extId.getD "") =
        some (applyUpdate tx
          { status := some Status.FAILED,
            providerTransactionId := some (p.extId.getD ""),
            providerCancelTime := some b1.now,
            cancelReason := p.reason }) := by
      unfold getTransactionByProviderId
      exact find?_updateTransaction _ fnd hu (by
        show (tx.provider == "payme" && (some (p.extId.getD "") ==
          some (p.extId.getD "")) : Bool) = true
        simp [hprov])
    have hrun2 : payme_handleCancel b2 reqId p
        ⟨updateTransaction st tx.id
          { status := some Status.FAILED,
            providerTransactionId := some (p.extId.getD ""),
            providerCancelTime := some b1.now,
            cancelReason := p.reason }, []⟩ =
        (Except.ok (PaymeBodyOut.res reqId
          (PaymeResult.cancel tx.id b1.now PAYME_STATE_CANCELLED_AFTER)),
          ⟨updateTransaction st tx.id
            { status := some Status.FAILED,
              providerTransactionId := some (p.extId.getD ""),
              providerCancelTime := some b1.now,
              cancelReason := p.reason },
            [Event.readByProviderId "payme" (p.extId.getD "")]⟩) := by
      unfold payme_handleCancel
      rw [if_neg (by simp [hpx])]
      dsimp only
      rw [h1 b2 hg2 _, hfind2]
      dsimp only
      have horl : orElseNum (some b1.now) (jsOrInt tx.updatedAt tx.createdAt) =
          b1.now := by
        unfold orElseNum
        dsimp only
        rw [if_neg (by omega)]
      simp only [applyUpdate, Option.map_some', Option.map_none', Option.getD_some,
        Option.getD_none, if_true]
      rw [horl]
      simp only [hpt]
      simp [hcomp]
    rw [hrun1, hrun2]
    refine ⟨rfl, rfl, by rfl, by simp [cbCount]⟩
  case neg =>
    rcases hupd : b1.updateThrows with _ | _
    case true =>
      have hrun1 : (payme_handleCancel b1 reqId p ⟨st, []⟩).1 =
          Except.error () := by
        unfold payme_handleCancel mUpdate emit
        rw [if_neg (by simp [hpx])]
        dsimp only
        rw [h1 b1 hg1 st, fnd]
        dsimp only
        rw [if_neg hfail, if_neg hcomp]
        dsimp only
        rw [hupd]
        rfl
      rw [hrun1] at hsucc
      simp at hsucc
    case false =>
    have hrun1 : payme_handleCancel b1 reqId p ⟨st, []⟩ =
        (Except.ok (PaymeBodyOut.res reqId
          (PaymeResult.cancel tx.id b1.now PAYME_STATE_CANCELLED_BEFORE)),
          ⟨updateTransaction st tx.id
            { status := some Status.FAILED,
              providerTransactionId := some (p.extId.getD ""),
              providerCancelTime := some b1.now,
              cancelReason := p.reason },
            [Event.readByProviderId "payme" (p.extId.getD ""),
              Event.write tx.id]⟩) := by
      unfold payme_handleCancel mUpdate emit
      rw [if_neg (by simp [hpx])]
      dsimp only
      rw [h1 b1 hg1 st, fnd]
      dsimp only
      rw [if_neg hfail, if_neg hcomp]
      dsimp only
      rw [hupd]
      simp only [Bool.false_eq_true, if_false, reduceIte]
      rw [if_neg hcomp]
      rfl
    have hfind2 : getTransactionByProviderId
        (updateTransaction st tx.id
          { status := some Status.FAILED,
            providerTransactionId := some (p.extId.getD ""),
            providerCancelTime := some b1.now,
            cancelReason := p.reason })
        "payme" (p.extId.getD "") =
        some (applyUpdate tx
          { status := some Status.FAILED,
            providerTransactionId := some (p.extId.getD ""),
            providerCancelTime := some b1.now,
            cancelReason := p.reason }) := by
      unfold getTransactionByProviderId
      exact find?_updateTransaction _ fnd hu (by
        show (tx.provider == "payme" && (some (p.extId.getD "") ==
          some (p.extId.getD "")) : Bool) = true
        simp [hprov])
    have hrun2 : payme_handleCancel b2 reqId p
        ⟨updateTransaction st tx.id
          { status := some Status.FAILED,
            providerTransactionId := some (p.extId.getD ""),
            providerCancelTime := some b1.now,
            cancelReason := p.reason }, []⟩ =
        (Except.ok (PaymeBodyOut.res reqId
          (PaymeResult.cancel tx.id b1.now PAYME_STATE_CANCELLED_BEFORE)),
          ⟨updateTransaction st tx.id
            { status := some Status.FAILED,
              providerTransactionId := some (p.extId.getD ""),
              providerCancelTime := some b1.now,
              cancelReason := p.reason },
            [Event.readByProviderId "payme" (p.extId.getD "")]⟩) := by
      unfold payme_handleCancel
      rw [if_neg (by simp [hpx])]
      dsimp only
      rw [h1 b2 hg2 _, hfind2]
      dsimp only
      have horl : orElseNum (some b1.now) (jsOrInt tx.updatedAt tx.createdAt) =
          b1.now := by
        unfold orElseNum
        dsimp only
        rw [if_neg (by omega)]
      simp only [applyUpdate, Option.map_some', Option.map_none', Option.getD_some,
        Option.getD_none, if_true]
      rw [horl]
      simp only [hpt]
      simp [hcomp]
    rw [hrun1, hrun2]
    refine ⟨rfl, rfl, by rfl, by simp [cbCount]⟩

/-- `handleCreate` answers `-31050` without touching the store when any of
the four required params is absent. -/
theorem payme_create_noParams (b : Behavior) (reqId : Int) (p : PaymeParams)
    (s : St)
    (h : p.orderId = none ∨ p.extId = none ∨ p.time = none ∨ p.amount = none) :
    payme_handleCreate b reqId p s = (Except.ok (paymeOrderNotFound reqId), s) := by
  unfold payme_handleCreate
  rcases ho : p.orderId with _ | o <;> rcases he : p.extId with _ | e <;>
    rcases ht : p.time with _ | t <;> rcases ha : p.amount with _ | a <;>
    simp_all

/-- Replaying a successful Payme `CreateTransaction` returns the same
response, leaves the store fixed, and invokes no callbacks at all. -/
theorem payme_create_replay (b1 b2 : Behavior) (reqId : Int) (p : PaymeParams)
    (st : Store) (r0 : PaymeResult)
    (hg1 : b1.getThrows = false) (hg2 : b2.getThrows = false)
    (hnow : 0 < b1.now) (hu : UniqueIds st) (hcons : PaymeConsistent st)
    (hsucc : (payme_handleCreate b1 reqId p ⟨st, []⟩).1 =
      Except.ok (PaymeBodyOut.res reqId r0)) :
    (payme_handleCreate b2 reqId p
        ⟨((payme_handleCreate b1 reqId p ⟨st, []⟩).2).store, []⟩).1 =
      (payme_handleCreate b1 reqId p ⟨st, []⟩).1 ∧
    ((payme_handleCreate b2 reqId p
        ⟨((payme_handleCreate b1 reqId p ⟨st, []⟩).2).store, []⟩).2).store =
      ((payme_handleCreate b1 reqId p ⟨st, []⟩).2).store ∧
    cbCount ((payme_handleCreate b2 reqId p
        ⟨((payme_handleCreate b1 reqId p ⟨st, []⟩).2).store, []⟩).2).events = 0 ∧
    cbCount ((payme_handleCreate b1 reqId p ⟨st, []⟩).2).events ≤ 1 := by
  by_cases hops : p.orderId = none ∨ p.extId = none ∨ p.time = none ∨
    p.amount = none
  case pos =>
    rw [payme_create_noParams b1 reqId p ⟨st, []⟩ hops] at hsucc
    simp [paymeOrderNotFound] at hsucc
  case neg =>
  push_neg at hops
  rcases Option.ne_none_iff_exists'.mp hops.1 with ⟨orderId, ho⟩
  rcases Option.ne_none_iff_exists'.mp hops.2.1 with ⟨extId, he⟩
  rcases Option.ne_none_iff_exists'.mp hops.2.2.1 with ⟨time, ht⟩
  rcases Option.ne_none_iff_exists'.mp hops.2.2.2 with ⟨amount, ha⟩
  by_cases hz : orderId = "" ∨ extId = "" ∨ time = 0 ∨ amount = 0
  case pos =>
    have hrun1 : (payme_handleCreate b1 reqId p ⟨st, []⟩).1 =
        Except.ok (paymeOrderNotFound reqId) := by
      unfold payme_handleCreate
      rw [ho, he, ht, ha]
      dsimp only
      rw [if_pos hz]
    rw [hrun1] at hsucc
    simp [paymeOrderNotFound] at hsucc
  case neg =>
  have h1 : ∀ b : Behavior, b.getThrows = false → ∀ s0 : Store,
      mGetById b orderId ⟨s0, []⟩ =
      (Except.ok (getTransactionById s0 orderId),
        ⟨s0, [Event.readById orderId]⟩) := by
    intro b hb s0
    unfold mGetById emit
    rw [hb]
    simp
  rcases fnd : getTransactionById st orderId with _ | tx
  case none =>
    have hrun1 : (payme_handleCreate b1 reqId p ⟨st, []⟩).1 =
        Except.ok (paymeOrderNotFound reqId) := by
      unfold payme_handleCreate
      rw [ho, he, ht, ha]
      dsimp only
      rw [if_neg hz]
      try dsimp only
      rw [h1 b1 hg1 st, fnd]
    rw [hrun1] at hsucc
    simp [paymeOrderNotFound] at hsucc
  case some =>
  by_cases hamt : amount = tx.amount
  case neg =>
    have hrun1 : (payme_handleCreate b1 reqId p ⟨st, []⟩).1 =
        Except.ok (paymeInvalidAmount reqId) := by
      unfold payme_handleCreate
      rw [ho, he, ht, ha]
      dsimp only
      rw [if_neg hz]
      try dsimp only
      rw [h1 b1 hg1 st, fnd]
      dsimp only
      rw [if_pos hamt]
    rw [hrun1] at hsucc
    simp [paymeInvalidAmount] at hsucc
  case pos =>
  by_cases hid : tx.providerTransactionId = some extId
  case pos =>
    have hrun : ∀ b : Behavior, b.getThrows = false →
        payme_handleCreate b reqId p ⟨st, []⟩ =
        (Except.ok (PaymeBodyOut.res reqId (PaymeResult.create time tx.id
          (if mapToPaymeState tx.status (truthyInt tx.providerPerformTime) = 0
            then PAYME_STATE_CREATED
            else mapToPaymeState tx.status (truthyInt tx.providerPerformTime)))),
          ⟨st, [Event.readById orderId]⟩) := by
      intro b hb
      unfold payme_handleCreate
      rw [ho, he, ht, ha]
      dsimp only
      rw [if_neg hz]
      try dsimp only
      rw [h1 b hb st, fnd]
      dsimp only
      rw [if_neg (not_not_intro hamt), if_pos hid]
    rw [hrun b1 hg1, hrun b2 hg2]
    refine ⟨rfl, rfl, by rfl, by simp [cbCount]⟩
  case neg =>
  have hid2 : tx.id = orderId := by
    have fnd2 : st.find? (fun t => t.id == orderId) = some tx := fnd
    have := List.find?_some fnd2
    simpa using this
  have hfind2 : getTransactionById
      (updateTransaction st tx.id
        { status := some Status.PREPARED,
          providerTransactionId := some extId,
          providerCreateTime := some time }) orderId =
      some (applyUpdate tx
        { status := some Status.PREPARED,
          providerTransactionId := some extId,
          providerCreateTime := some time }) := by
    unfold getTransactionById
    exact find?_updateTransaction _ fnd hu (by
      show ((applyUpdate tx _).id == orderId) = true
      simp [applyUpdate, hid2])
  have hrun2 : payme_handleCreate b2 reqId p
      ⟨updateTransaction st tx.id
        { status := some Status.PREPARED,
          providerTransactionId := some extId,
          providerCreateTime := some time }, []⟩ =
      (Except.ok (PaymeBodyOut.res reqId
        (PaymeResult.create time tx.id PAYME_STATE_CREATED)),
        ⟨updateTransaction st tx.id
          { status := some Status.PREPARED,
            providerTransactionId := some extId,
            providerCreateTime := some time },
          [Event.readById orderId]⟩) := by
    unfold payme_handleCreate
    rw [ho, he, ht, ha]
    dsimp only
    rw [if_neg hz]
    try dsimp only
    rw [h1 b2 hg2 _, hfind2]
    dsimp only
    simp only [applyUpdate, Option.map_some', Option.map_none', Option.getD_some,
      Option.getD_none]
    rw [if_neg (not_not_intro hamt), if_pos trivial]
    simp [mapToPaymeState, PAYME_STATE_CREATED]
  by_cases htr : truthyStr tx.providerTransactionId = true
  case pos =>
    by_cases hexp : tx.status = Status.PREPARED ∧
        truthyInt tx.providerCreateTime = true ∧
        b1.now - tx.providerCreateTime.getD 0 > TWELVE_HOURS_MS
    case neg =>
      have hrun1 : (payme_handleCreate b1 reqId p ⟨st, []⟩).1 =
          Except.ok (paymeOrderAlreadyPaid reqId) := by
        unfold payme_handleCreate
        rw [ho, he, ht, ha]
        dsimp only
        rw [if_neg hz]
        try dsimp only
        rw [h1 b1 hg1 st, fnd]
        dsimp only
        rw [if_neg (not_not_intro hamt), if_neg hid, if_pos ⟨htr, hid⟩,
          if_neg hexp]
      rw [hrun1] at hsucc
      simp [paymeOrderAlreadyPaid] at hsucc
    case pos =>
      rcases hupd : b1.updateThrows with _ | _
      case true =>
        have hrun1 : (payme_handleCreate b1 reqId p ⟨st, []⟩).1 =
            Except.error () := by
          unfold payme_handleCreate mUpdate emit
          rw [ho, he, ht, ha]
          dsimp only
          rw [if_neg hz]
          try dsimp only
          rw [h1 b1 hg1 st, fnd]
          dsimp only
          rw [if_neg (not_not_intro hamt), if_neg hid, if_pos ⟨htr, hid⟩,
            if_pos hexp]
          try dsimp only
          rw [hupd]
          rfl
        rw [hrun1] at hsucc
        simp at hsucc
      case false =>
      have hrun1 : payme_handleCreate b1 reqId p ⟨st, []⟩ =
          (Except.ok (PaymeBodyOut.res reqId
            (PaymeResult.create time tx.id PAYME_STATE_CREATED)),
            ⟨updateTransaction st tx.id
              { status := some Status.PREPARED,
                providerTransactionId := some extId,
                providerCreateTime := some time },
              [Event.readById orderId, Event.write tx.id]⟩) := by
        unfold payme_handleCreate mUpdate emit
        rw [ho, he, ht, ha]
        dsimp only
        rw [if_neg hz]
        try dsimp only
        rw [h1 b1 hg1 st, fnd]
        dsimp only
        rw [if_neg (not_not_intro hamt), if_neg hid, if_pos ⟨htr, hid⟩,
          if_pos hexp]
        try dsimp only
        rw [hupd]
        rfl
      rw [hrun1, hrun2]
      refine ⟨rfl, rfl, by rfl, by simp [cbCount]⟩
  case neg =>
    have htr2 : ¬ (truthyStr tx.providerTransactionId = true ∧
        tx.providerTransactionId ≠ some extId) := fun h => htr h.1
    by_cases hcf : tx.status = Status.COMPLETED ∨ tx.status = Status.FAILED
    case pos =>
      have hrun1 : (payme_handleCreate b1 reqId p ⟨st, []⟩).1 =
          Except.ok (paymeCannotPerform reqId) := by
        unfold payme_handleCreate
        rw [ho, he, ht, ha]
        dsimp only
        rw [if_neg hz]
        try dsimp only
        rw [h1 b1 hg1 st, fnd]
        dsimp only
        rw [if_neg (not_not_intro hamt), if_neg hid, if_neg htr2, if_pos hcf]
      rw [hrun1] at hsucc
      simp [paymeCannotPerform] at hsucc
    case neg =>
      rcases hupd : b1.updateThrows with _ | _
      case true =>
        have hrun1 : (payme_handleCreate b1 reqId p ⟨st, []⟩).1 =
            Except.error () := by
          unfold payme_handleCreate mUpdate emit
          rw [ho, he, ht, ha]
          dsimp only
          rw [if_neg hz]
          try dsimp only
          rw [h1 b1 hg1 st, fnd]
          dsimp only
          rw [if_neg (not_not_intro hamt), if_neg hid, if_neg htr2,
            if_neg hcf]
          try dsimp only
          rw [hupd]
          rfl
        rw [hrun1] at hsucc
        simp at hsucc
      case false =>
      have hrun1 : payme_handleCreate b1 reqId p ⟨st, []⟩ =
          (Except.ok (PaymeBodyOut.res reqId
            (PaymeResult.create time tx.id PAYME_STATE_CREATED)),
            ⟨updateTransaction st tx.id
              { status := some Status.PREPARED,
                providerTransactionId := some extId,
                providerCreateTime := some time },
              [Event.readById orderId, Event.write tx.id]⟩) := by
        unfold payme_handleCreate mUpdate emit
        rw [ho, he, ht, ha]
        dsimp only
        rw [if_neg hz]
        try dsimp only
        rw [h1 b1 hg1 st, fnd]
        dsimp only
        rw [if_neg (not_not_intro hamt), if_neg hid, if_neg htr2,
          if_neg hcf]
        try dsimp only
        rw [hupd]
        rfl
      rw [hrun1, hrun2]
      refine ⟨rfl, rfl, by rfl, by simp [cbCount]⟩

/-- Replay is absorbed after the first call: if one replay against the
post-call store reproduces the first response, fixes the store and runs no
callbacks, then every later call in the sequence does, and the callback
total over the whole sequence stays at most one. -/
theorem payme_replay_iterate (bs : Nat → Behavior) (method : String)
    (reqId : Int) (p : PaymeParams) (st : Store)
    (hstep : ∀ b2 : Behavior, b2.getThrows = false →
      (payme_route b2 method reqId p
          ⟨((payme_route (bs 0) method reqId p ⟨st, []⟩).2).store, []⟩).1 =
        (payme_route (bs 0) method reqId p ⟨st, []⟩).1 ∧
      ((payme_route b2 method reqId p
          ⟨((payme_route (bs 0) method reqId p ⟨st, []⟩).2).store, []⟩).2).store =
        ((payme_route (bs 0) method reqId p ⟨st, []⟩).2).store ∧
      cbCount ((payme_route b2 method reqId p
          ⟨((payme_route (bs 0) method reqId p ⟨st, []⟩).2).store, []⟩).2).events
        = 0 ∧
      cbCount ((payme_route (bs 0) method reqId p ⟨st, []⟩).2).events ≤ 1)
    (hg : ∀ n, (bs n).getThrows = false) :
    (∀ n, (paymeCalls bs method reqId p st n).1 =
      (paymeCalls bs method reqId p st 0).1) ∧
    ∀ n, paymeCbTotal bs method reqId p st n ≤ 1 := by
  have hfix : ∀ n, ((paymeCalls bs method reqId p st n).2).store =
      ((paymeCalls bs method reqId p st 0).2).store ∧
      (paymeCalls bs method reqId p st n).1 =
      (paymeCalls bs method reqId p st 0).1 := by
    intro n
    induction n with
    | zero => exact ⟨rfl, rfl⟩
    | succ k ih =>
      have hs : paymeCalls bs method reqId p st (k + 1) =
          payme_route (bs (k + 1)) method reqId p
            ⟨((paymeCalls bs method reqId p st k).2).store, []⟩ := rfl
      rw [hs, ih.1]
      exact ⟨(hstep (bs (k + 1)) (hg (k + 1))).2.1,
        (hstep (bs (k + 1)) (hg (k + 1))).1⟩
  refine ⟨fun n => (hfix n).2, ?_⟩
  intro n
  induction n with
  | zero =>
    show cbCount ((paymeCalls bs method reqId p st 0).2).events ≤ 1
    exact (hstep (bs 0) (hg 0)).2.2.2
  | succ k ih =>
    have hz : cbCount ((paymeCalls bs method reqId p st (k + 1)).2).events
        = 0 := by
      have hs : paymeCalls bs method reqId p st (k + 1) =
          payme_route (bs (k + 1)) method reqId p
            ⟨((paymeCalls bs method reqId p st k).2).store, []⟩ := rfl
      rw [hs, (hfix k).1]
      exact (hstep (bs (k + 1)) (hg (k + 1))).2.2.1
    show paymeCbTotal bs method reqId p st k +
      cbCount ((paymeCalls bs method reqId p st (k + 1)).2).events ≤ 1
    omega

/-- C4 (amended): for Payme CreateTransaction, PerformTransaction and
CancelTransaction, after a first successful call over a store with unique
ids whose perform-time field agrees with the COMPLETED status
(`PaymeConsistent`, which the Payme flow itself maintains), replaying the
identical request any number of times yields the same response body each
time, and the completion/cancellation callbacks run at most once in total
across the first call and all replays. -/
theorem C4_amended_replay_idempotent (bs : Nat → Behavior) (method : String)
    (reqId : Int) (p : PaymeParams) (st : Store) (r0 : PaymeResult)
    (hm : method = "CreateTransaction" ∨ method = "PerformTransaction" ∨
      method = "CancelTransaction")
    (hg : ∀ n, (bs n).getThrows = false) (hnow : 0 < (bs 0).now)
    (hu : UniqueIds st) (hcons : PaymeConsistent st)
    (hsucc : (paymeCalls bs method reqId p st 0).1 =
      Except.ok (PaymeBodyOut.res reqId r0)) :
    (∀ n, (paymeCalls bs method reqId p st n).1 =
      (paymeCalls bs method reqId p st 0).1) ∧
    ∀ n, paymeCbTotal bs method reqId p st n ≤ 1 := by
  rcases hm with hm | hm | hm <;> subst hm
  · exact payme_replay_iterate bs _ reqId p st
      (fun b2 hb2 => payme_create_replay (bs 0) b2 reqId p st r0 (hg 0) hb2
        hnow hu hcons hsucc) hg
  · exact payme_replay_iterate bs _ reqId p st
      (fun b2 hb2 => payme_perform_replay (bs 0) b2 reqId p st r0 (hg 0) hb2
        hnow hu hsucc) hg
  · exact payme_replay_iterate bs _ reqId p st
      (fun b2 hb2 => payme_cancel_replay (bs 0) b2 reqId p st r0 (hg 0) hb2
        hnow hu hcons hsucc) hg

/-- C4: counterexample to the literal claim.  A Payme transaction that is
COMPLETED but has no stored perform time (a store state outside the Payme
flow's own invariant, which the claim does not exclude) answers a first
`CancelTransaction` with state `-2` and the identical replay with state
`-1`: the response bodies differ. -/
theorem C4_counterexample :
    (payme_handleCancel quietBehavior 7 c4CexParams ⟨[c4CexTx], []⟩).1 =
      Except.ok (PaymeBodyOut.res 7 (PaymeResult.cancel "tx-1" 1700000500000
        PAYME_STATE_CANCELLED_AFTER)) ∧
    (payme_handleCancel quietBehavior 7 c4CexParams
        ⟨((payme_handleCancel quietBehavior 7 c4CexParams
          ⟨[c4CexTx], []⟩).2).store, []⟩).1 =
      Except.ok (PaymeBodyOut.res 7 (PaymeResult.cancel "tx-1" 1700000500000
        PAYME_STATE_CANCELLED_BEFORE)) ∧
    PAYME_STATE_CANCELLED_AFTER ≠ PAYME_STATE_CANCELLED_BEFORE := by
  refine ⟨by decide, by decide, by decide⟩

/-- C4: witness for the amended theorem at a concrete input — a PREPARED
Payme transaction completed by `PerformTransaction` and replayed. -/
theorem C4_amended_witness :
    UniqueIds [c4wTx] ∧ PaymeConsistent [c4wTx] ∧
    (paymeCalls (fun _ => quietBehavior) "PerformTransaction" 7 c4wParams
        [c4wTx] 0).1 =
      Except.ok (PaymeBodyOut.res 7 (PaymeResult.perform "tx-1" 1700000500000
        PAYME_STATE_COMPLETED)) ∧
    ((∀ n, (paymeCalls (fun _ => quietBehavior) "PerformTransaction" 7
        c4wParams [c4wTx] n).1 =
      (paymeCalls (fun _ => quietBehavior) "PerformTransaction" 7 c4wParams
        [c4wTx] 0).1) ∧
    ∀ n, paymeCbTotal (fun _ => quietBehavior) "PerformTransaction" 7 c4wParams
      [c4wTx] n ≤ 1) :=
  ⟨by unfold UniqueIds; decide, by unfold PaymeConsistent; decide, by decide,
    C4_amended_replay_idempotent (fun _ => quietBehavior) "PerformTransaction"
      7 c4wParams [c4wTx]
      (PaymeResult.perform "tx-1" 1700000500000 PAYME_STATE_COMPLETED)
      (Or.inr (Or.inl rfl)) (fun _ => rfl) (by decide)
      (by unfold UniqueIds; decide) (by unfold PaymeConsistent; decide)
      (by decide)⟩

end UzPay